import Mathlib

set_option maxRecDepth 100000
set_option allowUnsafeReducibility true
attribute [semireducible] Rat.add Rat.sub Rat.mul Rat.inv Rat.ofScientific

/-!
Shallow embedding of the backtest core of the breezepython repository:
the eight-signal evaluator (src/domain/services/signal_evaluator.py),
the strike selector (src/infrastructure/services/option_pricing_service.py)
and the backtest simulator (src/application/use_cases/run_backtest.py).
Prices are embedded as rationals, timestamps as hours since an epoch
(24 hours per calendar day), and every mutable Python object is embedded
by explicit state passing.  Components of the repository that are imported
by the sources but are not present in the source tree (the value-objects
module and the weekly context manager) are modelled from the specification
and carry a doc comment saying so.
-/

namespace Breeze

/-- Timestamps are hours since an epoch; the calendar day of a timestamp is
its hour count divided by 24, the embedding of datetime.date(). -/
abbrev Ts := Nat

def Ts.date (t : Ts) : Nat := t / 24

/-- Binary maximum on prices, the embedding of the Python builtin max. -/
def qmax (a b : ℚ) : ℚ := if a < b then b else a

/-- Binary minimum on prices, the embedding of the Python builtin min. -/
def qmin (a b : ℚ) : ℚ := if b < a then b else a

/-- Absolute value on prices, the embedding of the Python builtin abs. -/
def qabs (a : ℚ) : ℚ := if a < 0 then -a else a

/-- Modelled from the spec: the BarData value object of the missing
value-objects module — an immutable OHLC record at a timestamp. -/
structure BarData where
  timestamp : Ts
  «open» : ℚ
  high : ℚ
  low : ℚ
  close : ℚ
deriving DecidableEq, Repr

/-- Modelled from the spec: derived body_range of a bar, equal to the
absolute difference of open and close. -/
def BarData.body_range (b : BarData) : ℚ := qabs (b.«open» - b.close)

/-- Modelled from the spec: weekly support and resistance zones, recomputed
once per week and frozen for that week's evaluation. -/
structure WeeklyZones where
  prev_week_high : ℚ
  prev_week_low : ℚ
  prev_week_close : ℚ
  upper_zone_top : ℚ
  upper_zone_bottom : ℚ
  lower_zone_top : ℚ
  lower_zone_bottom : ℚ
deriving DecidableEq, Repr

/-- Modelled from the spec: the near-zone predicate is price within the zone
bounds, inclusive (lower zone). -/
def WeeklyZones.is_near_lower_zone (z : WeeklyZones) (p : ℚ) : Bool :=
  decide (z.lower_zone_bottom ≤ p ∧ p ≤ z.lower_zone_top)

/-- Modelled from the spec: the near-zone predicate is price within the zone
bounds, inclusive (upper zone). -/
def WeeklyZones.is_near_upper_zone (z : WeeklyZones) (p : ℚ) : Bool :=
  decide (z.upper_zone_bottom ≤ p ∧ p ≤ z.upper_zone_top)

/-- Directional bias values. -/
inductive BiasDirection
  | bullish
  | bearish
  | neutral
deriving DecidableEq, Repr

/-- Modelled from the spec: the bias value object derived from the previous
week's close relative to the zones. -/
structure BiasResult where
  bias : BiasDirection
  strength : ℚ
  distance_to_resistance : ℚ
  distance_to_support : ℚ
deriving DecidableEq, Repr

def BiasResult.is_bullish (b : BiasResult) : Bool := b.bias == .bullish

def BiasResult.is_bearish (b : BiasResult) : Bool := b.bias == .bearish

/-- The eight signal identifiers. -/
inductive SignalType
  | S1 | S2 | S3 | S4 | S5 | S6 | S7 | S8
deriving DecidableEq, Repr

/-- Trade direction of a signal. -/
inductive TradeDirection
  | BULLISH
  | BEARISH
deriving DecidableEq, Repr

/-- Option kind: CE is a call, PE is a put. -/
inductive OptionKind
  | CE
  | PE
deriving DecidableEq, Repr

/-- Modelled from the spec: direction of each signal — S1, S2, S4, S7 are
bullish, the rest bearish. -/
def SignalType.tradeDirection : SignalType → TradeDirection
  | .S1 | .S2 | .S4 | .S7 => .BULLISH
  | _ => .BEARISH

/-- Modelled from the spec: bullish signals sell a PUT, bearish signals sell
a CALL. -/
def SignalType.optionKind : SignalType → OptionKind
  | .S1 | .S2 | .S4 | .S7 => .PE
  | _ => .CE

/-- Modelled from the spec: the WeeklyContext state object, one per trading
week, mutated bar by bar (embedded by state passing). -/
structure WeeklyContext where
  current_week_start : Ts
  zones : WeeklyZones
  bias : BiasResult
  first_hour_bar : Option BarData
  weekly_bars : List BarData
  signal_triggered_this_week : Bool
  triggered_signal : Option SignalType
  triggered_at : Option Ts
  s4_breakout_candle_high : Option ℚ
  s8_breakdown_candle_low : Option ℚ
  has_touched_upper_zone_this_week : Bool
  weekly_max_high : ℚ
  weekly_min_low : ℚ
deriving DecidableEq, Repr

/-- Modelled from the spec: the SignalResult value object.  Fields of the
no-signal sentinel are embedded as none. -/
structure SignalResult where
  is_triggered : Bool
  signal_type : Option SignalType
  direction : Option TradeDirection
  entry_time : Option Ts
  entry_price : Option ℚ
  stop_loss : Option ℚ
  option_type : Option OptionKind
  confidence : ℚ
deriving DecidableEq, Repr

/-- Modelled from the spec: the populated-but-inert no-signal result. -/
def SignalResult.no_signal : SignalResult :=
  { is_triggered := false, signal_type := none, direction := none,
    entry_time := none, entry_price := none, stop_loss := none,
    option_type := none, confidence := 0 }

/-- Modelled from the spec: constructor of a triggered SignalResult; the
direction and option kind are derived from the signal type. -/
def SignalResult.from_signal (signal_type : SignalType) (stop_loss : ℚ)
    (entry_time : Ts) (entry_price : ℚ) (confidence : ℚ) : SignalResult :=
  { is_triggered := true, signal_type := some signal_type,
    direction := some signal_type.tradeDirection,
    entry_time := some entry_time, entry_price := some entry_price,
    stop_loss := some stop_loss,
    option_type := some signal_type.optionKind, confidence := confidence }

/-- Embedding of the Python builtin max over a sequence; every use site
guards the list nonempty, the empty case value is irrelevant. -/
def listMax : List ℚ → ℚ
  | [] => 0
  | x :: xs => xs.foldl qmax x

/-- Embedding of the Python builtin min over a sequence; every use site
guards the list nonempty, the empty case value is irrelevant. -/
def listMin : List ℚ → ℚ
  | [] => 0
  | x :: xs => xs.foldl qmin x

/-- Translation of SignalEvaluator._evaluate_s1 (signal_evaluator.py):
S1 bear trap, evaluated on the second candle only. -/
def evaluate_s1 (is_second_bar : Bool) (first_bar : Option BarData)
    (current_bar : BarData) (context : WeeklyContext) : SignalResult :=
  match is_second_bar, first_bar with
  | true, some fb =>
    let zones := context.zones
    if zones.lower_zone_bottom ≤ fb.«open» ∧
        fb.close < zones.lower_zone_bottom ∧
        fb.low < current_bar.close then
      SignalResult.from_signal .S1 (fb.low - fb.body_range)
        current_bar.timestamp current_bar.close (85/100)
    else
      SignalResult.no_signal
  | _, _ => SignalResult.no_signal

/-- Translation of SignalEvaluator._evaluate_s2 (signal_evaluator.py):
S2 support hold, bullish bias, second candle only. -/
def evaluate_s2 (is_second_bar : Bool) (first_bar : Option BarData)
    (current_bar : BarData) (context : WeeklyContext) : SignalResult :=
  match is_second_bar, first_bar with
  | true, some fb =>
    let zones := context.zones
    let bias := context.bias
    if bias.is_bullish then
      if zones.prev_week_low < fb.«open» ∧
          zones.is_near_lower_zone zones.prev_week_close = true ∧
          zones.is_near_lower_zone fb.«open» = true ∧
          zones.lower_zone_bottom ≤ fb.close ∧
          zones.prev_week_close ≤ fb.close ∧
          fb.low ≤ current_bar.close ∧
          zones.prev_week_close < current_bar.close ∧
          zones.lower_zone_bottom < current_bar.close then
        SignalResult.from_signal .S2 zones.lower_zone_bottom
          current_bar.timestamp current_bar.close (80/100)
      else
        SignalResult.no_signal
    else
      SignalResult.no_signal
  | _, _ => SignalResult.no_signal

/-- Translation of SignalEvaluator._evaluate_s3 (signal_evaluator.py):
S3 resistance hold, bearish bias, two trigger cases. -/
def evaluate_s3 (is_second_bar : Bool) (first_bar : Option BarData)
    (current_bar : BarData) (weekly_bars : List BarData)
    (context : WeeklyContext) : SignalResult :=
  match first_bar with
  | some fb =>
    let zones := context.zones
    let bias := context.bias
    if bias.is_bearish then
      if zones.is_near_upper_zone zones.prev_week_close = true ∧
          zones.is_near_upper_zone fb.«open» = true ∧
          fb.close ≤ zones.prev_week_high then
        let touched_zone :=
          zones.upper_zone_bottom ≤ fb.high ∨
            zones.upper_zone_bottom ≤ current_bar.high
        if is_second_bar = true ∧
            current_bar.close < fb.high ∧
            current_bar.close < zones.upper_zone_bottom ∧
            touched_zone then
          SignalResult.from_signal .S3 zones.prev_week_high
            current_bar.timestamp current_bar.close (75/100)
        else if 1 < weekly_bars.length ∧
            current_bar.close < fb.low ∧
            current_bar.close < zones.upper_zone_bottom ∧
            current_bar.close < listMin (weekly_bars.dropLast.map (·.low)) ∧
            current_bar.close < listMin (weekly_bars.dropLast.map (·.close)) then
          SignalResult.from_signal .S3 zones.prev_week_high
            current_bar.timestamp current_bar.close (78/100)
        else
          SignalResult.no_signal
      else
        SignalResult.no_signal
    else
      SignalResult.no_signal
  | none => SignalResult.no_signal

/-- Translation of SignalEvaluator._evaluate_s5 (signal_evaluator.py):
S5 bias failure bear. -/
def evaluate_s5 (first_bar : Option BarData) (current_bar : BarData)
    (context : WeeklyContext) : SignalResult :=
  match first_bar, context.first_hour_bar with
  | some fb, some fh =>
    let zones := context.zones
    let bias := context.bias
    if bias.is_bullish then
      if fb.«open» < zones.lower_zone_bottom ∧
          fh.close < zones.lower_zone_bottom ∧
          fh.close < zones.prev_week_low ∧
          current_bar.close < fh.low then
        SignalResult.from_signal .S5 fh.high
          current_bar.timestamp current_bar.close (80/100)
      else
        SignalResult.no_signal
    else
      SignalResult.no_signal
  | _, _ => SignalResult.no_signal

/-- Translation of SignalEvaluator._evaluate_s6 (signal_evaluator.py):
S6 weakness confirmed, bearish bias, the two S3 trigger cases with an
adjusted base condition. -/
def evaluate_s6 (is_second_bar : Bool) (first_bar : Option BarData)
    (current_bar : BarData) (weekly_bars : List BarData)
    (context : WeeklyContext) : SignalResult :=
  match first_bar with
  | some fb =>
    let zones := context.zones
    let bias := context.bias
    if bias.is_bearish then
      if zones.upper_zone_bottom ≤ fb.high ∧
          fb.close ≤ zones.upper_zone_top ∧
          fb.close ≤ zones.prev_week_high then
        if is_second_bar = true ∧
            current_bar.close < fb.high ∧
            current_bar.close < zones.upper_zone_bottom then
          SignalResult.from_signal .S6 zones.prev_week_high
            current_bar.timestamp current_bar.close (73/100)
        else if 1 < weekly_bars.length ∧
            current_bar.close < fb.low ∧
            current_bar.close < zones.upper_zone_bottom ∧
            current_bar.close < listMin (weekly_bars.dropLast.map (·.low)) ∧
            current_bar.close < listMin (weekly_bars.dropLast.map (·.close)) then
          SignalResult.from_signal .S6 zones.prev_week_high
            current_bar.timestamp current_bar.close (75/100)
        else
          SignalResult.no_signal
      else
        SignalResult.no_signal
    else
      SignalResult.no_signal
  | none => SignalResult.no_signal

/-- Loop state of SignalEvaluator._check_s4_trigger (signal_evaluator.py):
running highest high, the fired flag and the breakout-candle high (the
field the Python code mutates on the context). -/
structure S4Walk where
  highest_high : ℚ
  signal_fired : Bool
  candle : Option ℚ
deriving DecidableEq, Repr

/-- One iteration of the bar walk inside _check_s4_trigger. -/
def s4Step (first_hour_high : ℚ) (first_hour_day : Nat) (s : S4Walk)
    (bar : BarData) : S4Walk :=
  if s.signal_fired then s
  else
    let highest_high_before := s.highest_high
    let hh := qmax s.highest_high bar.high
    if bar.timestamp.date = first_hour_day then
      if first_hour_high < bar.close then ⟨hh, true, s.candle⟩
      else ⟨hh, false, s.candle⟩
    else
      match s.candle with
      | none =>
        if bar.«open» < bar.close ∧ first_hour_high < bar.close ∧
            highest_high_before ≤ bar.high then
          ⟨hh, false, some bar.high⟩
        else ⟨hh, false, none⟩
      | some c =>
        if c < bar.close then ⟨hh, true, some c⟩
        else ⟨hh, false, some c⟩

/-- The whole bar walk of _check_s4_trigger, starting from highest high 0.0
and the breakout-candle state currently stored on the context. -/
def s4Run (first_hour_high : ℚ) (first_hour_day : Nat) (c0 : Option ℚ)
    (bars : List BarData) : S4Walk :=
  bars.foldl (s4Step first_hour_high first_hour_day) ⟨0, false, c0⟩

/-- Translation of SignalEvaluator._check_s4_trigger_simple
(signal_evaluator.py): true iff some bar closes above the first-hour high. -/
def check_s4_trigger_simple (bars : List BarData)
    (context : WeeklyContext) : Bool :=
  match bars, context.first_hour_bar with
  | [], _ => false
  | _, none => false
  | bars, some fh => bars.any fun b => decide (fh.high < b.close)

/-- Translation of SignalEvaluator._check_s4_trigger (signal_evaluator.py).
The returned context carries the possibly updated breakout-candle high. -/
def check_s4_trigger (weekly_bars : List BarData)
    (context : WeeklyContext) : Bool × WeeklyContext :=
  if weekly_bars.isEmpty then (false, context)
  else
    match context.first_hour_bar with
    | none => (false, context)
    | some fh =>
      let w := s4Run fh.high fh.timestamp.date
        context.s4_breakout_candle_high weekly_bars
      let ctx' := {context with s4_breakout_candle_high := w.candle}
      if 2 ≤ weekly_bars.length then
        (w.signal_fired && !check_s4_trigger_simple weekly_bars.dropLast ctx',
          ctx')
      else
        (w.signal_fired, ctx')

/-- Loop state of SignalEvaluator._check_s8_trigger (signal_evaluator.py);
the running lowest low starts at positive infinity, embedded as none. -/
structure S8Walk where
  lowest_low : Option ℚ
  signal_fired : Bool
  candle : Option ℚ
deriving DecidableEq, Repr

/-- Minimum against a running lowest low that starts at infinity. -/
def lowMin : Option ℚ → ℚ → Option ℚ
  | none, v => some v
  | some l, v => some (qmin l v)

/-- Comparison of a bar low against the running lowest low, infinity being
larger than everything. -/
def lowLE (v : ℚ) : Option ℚ → Bool
  | none => true
  | some l => decide (v ≤ l)

/-- One iteration of the bar walk inside _check_s8_trigger. -/
def s8Step (first_hour_low : ℚ) (first_hour_day : Nat) (s : S8Walk)
    (bar : BarData) : S8Walk :=
  if s.signal_fired then s
  else
    let lowest_low_before := s.lowest_low
    let ll := lowMin s.lowest_low bar.low
    if bar.timestamp.date = first_hour_day then
      if bar.close < first_hour_low then ⟨ll, true, s.candle⟩
      else ⟨ll, false, s.candle⟩
    else
      match s.candle with
      | none =>
        if bar.close < bar.«open» ∧ bar.close < first_hour_low ∧
            lowLE bar.low lowest_low_before = true then
          ⟨ll, false, some bar.low⟩
        else ⟨ll, false, none⟩
      | some c =>
        if bar.close < c then ⟨ll, true, some c⟩
        else ⟨ll, false, some c⟩

/-- The whole bar walk of _check_s8_trigger. -/
def s8Run (first_hour_low : ℚ) (first_hour_day : Nat) (c0 : Option ℚ)
    (bars : List BarData) : S8Walk :=
  bars.foldl (s8Step first_hour_low first_hour_day) ⟨none, false, c0⟩

/-- Translation of SignalEvaluator._check_s8_trigger_simple
(signal_evaluator.py): true iff some bar closes below the first-hour low. -/
def check_s8_trigger_simple (bars : List BarData)
    (context : WeeklyContext) : Bool :=
  match bars, context.first_hour_bar with
  | [], _ => false
  | _, none => false
  | bars, some fh => bars.any fun b => decide (b.close < fh.low)

/-- Translation of SignalEvaluator._check_s8_trigger (signal_evaluator.py),
the mirror of the S4 check. -/
def check_s8_trigger (weekly_bars : List BarData)
    (context : WeeklyContext) : Bool × WeeklyContext :=
  if weekly_bars.isEmpty then (false, context)
  else
    match context.first_hour_bar with
    | none => (false, context)
    | some fh =>
      let w := s8Run fh.low fh.timestamp.date
        context.s8_breakdown_candle_low weekly_bars
      let ctx' := {context with s8_breakdown_candle_low := w.candle}
      if 2 ≤ weekly_bars.length then
        (w.signal_fired && !check_s8_trigger_simple weekly_bars.dropLast ctx',
          ctx')
      else
        (w.signal_fired, ctx')

/-- Modelled from the claim, for the refinement comparison of C4: the
just-fired test as the claim words it — deciding the transition by
re-running the SAME full trigger walk against all but the last bar and
requiring a different outcome. -/
def check_s4_trigger_claim (weekly_bars : List BarData)
    (context : WeeklyContext) : Bool :=
  if weekly_bars.isEmpty then false
  else
    match context.first_hour_bar with
    | none => false
    | some fh =>
      let w := s4Run fh.high fh.timestamp.date
        context.s4_breakout_candle_high weekly_bars
      if 2 ≤ weekly_bars.length then
        w.signal_fired &&
          !(s4Run fh.high fh.timestamp.date context.s4_breakout_candle_high
            weekly_bars.dropLast).signal_fired
      else
        w.signal_fired

/-- Translation of SignalEvaluator._evaluate_s4 (signal_evaluator.py):
S4 bias failure bull; runs the breakout trigger check, whose candle state
update is threaded back. -/
def evaluate_s4 (first_bar : Option BarData) (current_bar : BarData)
    (weekly_bars : List BarData) (context : WeeklyContext) :
    SignalResult × WeeklyContext :=
  match first_bar with
  | none => (SignalResult.no_signal, context)
  | some fb =>
    if context.bias.is_bearish then
      if fb.«open» ≤ context.zones.upper_zone_top then
        (SignalResult.no_signal, context)
      else
        let r := check_s4_trigger weekly_bars context
        if r.1 then
          let stop_loss :=
            match r.2.first_hour_bar with
            | some fh => fh.low
            | none => fb.low
          (SignalResult.from_signal .S4 stop_loss current_bar.timestamp
            current_bar.close (82/100), r.2)
        else
          (SignalResult.no_signal, r.2)
    else
      (SignalResult.no_signal, context)

/-- Translation of SignalEvaluator._evaluate_s7 (signal_evaluator.py):
S7 breakout confirmed; requires the S4 trigger, a gap of at least 0.40
percent below the previous week high (when below it), and a close above
the weekly maxima excluding the current bar. -/
def evaluate_s7 (current_bar : BarData) (weekly_bars : List BarData)
    (context : WeeklyContext) : SignalResult × WeeklyContext :=
  let zones := context.zones
  let r := check_s4_trigger weekly_bars context
  if !r.1 then (SignalResult.no_signal, r.2)
  else
    let gap_pct := ((zones.prev_week_high - current_bar.close) /
      current_bar.close) * 100
    if current_bar.close < zones.prev_week_high ∧ gap_pct < 40/100 then
      (SignalResult.no_signal, r.2)
    else
      if 1 < weekly_bars.length ∧
          listMax (weekly_bars.dropLast.map (·.high)) < current_bar.close ∧
          listMax (weekly_bars.dropLast.map (·.close)) < current_bar.close then
        let stop_loss :=
          match r.2.first_hour_bar with
          | some fh => fh.low
          | none => (weekly_bars.head?.map (·.low)).getD 0
        (SignalResult.from_signal .S7 stop_loss current_bar.timestamp
          current_bar.close (88/100), r.2)
      else
        (SignalResult.no_signal, r.2)

/-- Translation of SignalEvaluator._evaluate_s8 (signal_evaluator.py):
S8 breakdown confirmed; requires the S8 trigger, the upper zone touched
this week, and a close below the resistance bottom and the weekly minima
excluding the current bar. -/
def evaluate_s8 (current_bar : BarData) (weekly_bars : List BarData)
    (context : WeeklyContext) : SignalResult × WeeklyContext :=
  let zones := context.zones
  let r := check_s8_trigger weekly_bars context
  if !r.1 then (SignalResult.no_signal, r.2)
  else if !context.has_touched_upper_zone_this_week then
    (SignalResult.no_signal, r.2)
  else if zones.upper_zone_bottom ≤ current_bar.close then
    (SignalResult.no_signal, r.2)
  else
    if 1 < weekly_bars.length ∧
        current_bar.close < listMin (weekly_bars.dropLast.map (·.low)) ∧
        current_bar.close < listMin (weekly_bars.dropLast.map (·.close)) then
      let stop_loss :=
        match r.2.first_hour_bar with
        | some fh => fh.high
        | none => (weekly_bars.head?.map (·.high)).getD 0
      (SignalResult.from_signal .S8 stop_loss current_bar.timestamp
        current_bar.close (87/100), r.2)
    else
      (SignalResult.no_signal, r.2)

/-- Side effect of a trigger inside evaluate_all_signals: the context is
marked as signal-triggered for the rest of the week. -/
def markTriggered (context : WeeklyContext) (signal : SignalResult) :
    WeeklyContext :=
  { context with
    signal_triggered_this_week := true
    triggered_signal := signal.signal_type
    triggered_at := signal.entry_time }

/-- An entry of the ordered evaluator list of evaluate_all_signals: a
signal evaluator applied to the shared (possibly mutated) context. -/
abbrev SigEvaluator := WeeklyContext → SignalResult × WeeklyContext

/-- The ordered evaluator list built by evaluate_all_signals
(signal_evaluator.py lines 45-54), each entry closed over the arguments
computed before the loop; the evaluators of S1, S2, S3, S5 and S6 do not
mutate the context. -/
def evaluators (is_second_bar : Bool) (first_bar : Option BarData)
    (current_bar : BarData) (weekly_bars : List BarData) :
    List SigEvaluator :=
  [fun c => (evaluate_s1 is_second_bar first_bar current_bar c, c),
   fun c => (evaluate_s2 is_second_bar first_bar current_bar c, c),
   fun c => (evaluate_s3 is_second_bar first_bar current_bar weekly_bars c,
     c),
   fun c => evaluate_s4 first_bar current_bar weekly_bars c,
   fun c => (evaluate_s5 first_bar current_bar c, c),
   fun c => (evaluate_s6 is_second_bar first_bar current_bar weekly_bars c,
     c),
   fun c => evaluate_s7 current_bar weekly_bars c,
   fun c => evaluate_s8 current_bar weekly_bars c]

/-- The evaluator loop of evaluate_all_signals (signal_evaluator.py lines
56-63): run the evaluators in order on the shared context; on the first
triggered result mark the context and return, otherwise fall through to
the no-signal sentinel. -/
def runEvaluators : List SigEvaluator → WeeklyContext →
    SignalResult × WeeklyContext
  | [], c => (SignalResult.no_signal, c)
  | f :: fs, c =>
    let r := f c
    if r.1.is_triggered then (r.1, markTriggered r.2 r.1)
    else runEvaluators fs r.2

/-- Translation of SignalEvaluator.evaluate_all_signals
(signal_evaluator.py): evaluates S1..S8 in strict order on the shared
context, returns the first triggered result and the mutated context. -/
def evaluate_all_signals (current_bar : BarData)
    (context : WeeklyContext) : SignalResult × WeeklyContext :=
  if context.signal_triggered_this_week then
    (SignalResult.no_signal, context)
  else if context.weekly_bars.isEmpty then
    (SignalResult.no_signal, context)
  else
    runEvaluators
      (evaluators (context.weekly_bars.length == 2)
        context.weekly_bars.head? current_bar context.weekly_bars)
      context

/-- Embedding of the Python builtin round (banker's rounding: halves go to
the even neighbour), used by the ATM strike calculation. -/
def pyRound (x : ℚ) : Int :=
  if x - Int.floor x = 1/2 then
    if 2 ∣ Int.floor x then Int.floor x else Int.floor x + 1
  else
    round x

/-- Translation of OptionPricingService.calculate_atm_strike
(option_pricing_service.py). -/
def calculate_atm_strike (spot_price : ℚ) (strike_interval : Int := 50) :
    Int :=
  pyRound (spot_price / (strike_interval : ℚ)) * strike_interval

/-- Translation of OptionPricingService.get_option_strikes_for_signal
(option_pricing_service.py): main strike at ATM; bullish signals hedge
below, bearish signals hedge above. -/
def get_option_strikes_for_signal (spot_price : ℚ)
    (signal_type : SignalType) (hedge_offset : Int := 500) : Int × Int :=
  let atm_strike := calculate_atm_strike spot_price
  match signal_type with
  | .S1 | .S2 | .S4 | .S7 => (atm_strike, atm_strike - hedge_offset)
  | _ => (atm_strike, atm_strike + hedge_offset)

/-- Position side: the sold main leg or the bought hedge leg. -/
inductive PositionType
  | MAIN
  | HEDGE
deriving DecidableEq, Repr

/-- Trade lifecycle states of the simulator. -/
inductive TradeOutcome
  | OPEN | WIN | LOSS | STOPPED | EXPIRED
deriving DecidableEq, Repr

/-- Embedding of the BacktestPosition record (run_backtest.py); quantity is
signed, negative for a sold option. -/
structure BacktestPosition where
  position_type : PositionType
  option_type : OptionKind
  strike_price : Int
  expiry_date : Ts
  entry_time : Ts
  entry_price : ℚ
  quantity : Int
  exit_time : Option Ts := none
  exit_price : Option ℚ := none
  gross_pnl : ℚ := 0
  commission : ℚ := 0
  net_pnl : ℚ := 0
deriving DecidableEq, Repr

/-- Embedding of the BacktestTrade record (run_backtest.py), restricted to
the fields the simulation logic reads or writes. -/
structure BacktestTrade where
  signal_type : SignalType
  direction : TradeDirection
  entry_time : Ts
  index_price_at_entry : ℚ
  stop_loss_price : ℚ
  outcome : TradeOutcome
  exit_time : Option Ts := none
  index_price_at_exit : Option ℚ := none
  exit_reason : Option String := none
  positions : List BacktestPosition := []
  total_pnl : ℚ := 0
deriving DecidableEq, Repr

/-- The option pricing gateway contract: price of an option at a timestamp,
or none when the data is missing (get_option_price_at_time). -/
abbrev PriceOracle := Ts → Int → OptionKind → Ts → Option ℚ

/-- Python truthiness of an optional price: None and 0.0 are both falsy. -/
def priceTruthy : Option ℚ → Bool
  | none => false
  | some p => p != 0

/-- Translation of the per-position part of RunBacktestUseCase._close_trade
(run_backtest.py): resolve the exit price (falling back to intrinsic value
at or after expiry, else zero), then gross P&L, the hardcoded commission
of lots times 40 times 2 with lots equal to absolute quantity integer
divided by 50, and net P&L. -/
def close_position (priceAt : PriceOracle) (exit_time : Ts)
    (index_price : ℚ) (p : BacktestPosition) : BacktestPosition :=
  let looked := priceAt exit_time p.strike_price p.option_type p.expiry_date
  let exit_price : ℚ :=
    if priceTruthy looked then looked.getD 0
    else if p.expiry_date ≤ exit_time then
      match p.option_type with
      | .CE => qmax 0 (index_price - (p.strike_price : ℚ))
      | .PE => qmax 0 ((p.strike_price : ℚ) - index_price)
    else 0
  let gross_pnl : ℚ :=
    if p.quantity < 0 then (p.quantity.natAbs : ℚ) * (p.entry_price - exit_price)
    else (p.quantity : ℚ) * (exit_price - p.entry_price)
  let lots : Nat := p.quantity.natAbs / 50
  let commission : ℚ := (lots : ℚ) * 40 * 2
  { p with
    exit_time := some exit_time
    exit_price := some exit_price
    gross_pnl := gross_pnl
    commission := commission
    net_pnl := gross_pnl - commission }

/-- Translation of RunBacktestUseCase._close_trade (run_backtest.py):
closes every position, accumulates the total P&L, and overwrites the
outcome with WIN or LOSS unless the total is exactly zero.  Returns the
closed trade and the P&L the caller adds to capital. -/
def close_trade (priceAt : PriceOracle) (trade : BacktestTrade)
    (exit_time : Ts) (index_price : ℚ) (outcome : TradeOutcome)
    (reason : String) : BacktestTrade × ℚ :=
  let positions := trade.positions.map (close_position priceAt exit_time index_price)
  let total_pnl : ℚ := positions.foldl (fun acc p => acc + p.net_pnl) 0
  let final_outcome :=
    if 0 < total_pnl then TradeOutcome.WIN
    else if total_pnl < 0 then TradeOutcome.LOSS
    else outcome
  ({ trade with
      exit_time := some exit_time
      index_price_at_exit := some index_price
      outcome := final_outcome
      exit_reason := some reason
      positions := positions
      total_pnl := total_pnl }, total_pnl)

/-- Run parameters of the simulator (BacktestParameters, run_backtest.py);
dates are implicit in the bar list handed to the run. -/
structure BacktestParameters where
  initial_capital : ℚ := 500000
  lot_size : Int := 50
  signals_to_test : List SignalType :=
    [.S1, .S2, .S3, .S4, .S5, .S6, .S7, .S8]
  use_hedging : Bool := true
  hedge_offset : Int := 500
  commission_per_lot : ℚ := 40
  slippage_percent : ℚ := 1/1000
deriving DecidableEq, Repr

/-- Membership test of the triggered signal type in signals_to_test
(run_backtest.py line 264); an untriggered none is never a member. -/
def sigMem (o : Option SignalType) (l : List SignalType) : Bool :=
  match o with
  | some s => l.contains s
  | none => false

/-- Translation of RunBacktestUseCase._open_trade (run_backtest.py), on the
path where no exception is raised: builds the trade record, adds the main
position only when its price resolves truthy, adds the hedge position when
hedging is enabled and its price resolves truthy, and returns the trade.
An exception inside the Python body returns None instead; the pure
embedding covers the gateway returning a price or None. -/
def open_trade (get_expiry_for_week : Ts → Ts) (priceAt : PriceOracle)
    (signal_result : SignalResult) (current_bar : BarData)
    (context : WeeklyContext) (params : BacktestParameters) :
    Option BacktestTrade :=
  match signal_result.signal_type, signal_result.direction,
      signal_result.entry_price, signal_result.stop_loss,
      signal_result.option_type with
  | some st, some dir, some _ep, some sl, some ok =>
    let expiry := get_expiry_for_week context.current_week_start
    let strikes := get_option_strikes_for_signal current_bar.close st
      params.hedge_offset
    let trade0 : BacktestTrade :=
      { signal_type := st
        direction := dir
        entry_time := current_bar.timestamp
        index_price_at_entry := current_bar.close
        stop_loss_price := sl
        outcome := .OPEN }
    let main_price := priceAt current_bar.timestamp strikes.1 ok expiry
    let trade1 :=
      if priceTruthy main_price then
        { trade0 with positions := trade0.positions ++
            [{ position_type := .MAIN, option_type := ok,
               strike_price := strikes.1, expiry_date := expiry,
               entry_time := current_bar.timestamp,
               entry_price := main_price.getD 0,
               quantity := -params.lot_size }] }
      else trade0
    let trade2 :=
      if params.use_hedging then
        let hedge_price := priceAt current_bar.timestamp strikes.2 ok expiry
        if priceTruthy hedge_price then
          { trade1 with positions := trade1.positions ++
              [{ position_type := .HEDGE, option_type := ok,
                 strike_price := strikes.2, expiry_date := expiry,
                 entry_time := current_bar.timestamp,
                 entry_price := hedge_price.getD 0,
                 quantity := params.lot_size }] }
        else trade1
      else trade1
    some trade2
  | _, _, _, _, _ => none

/-- Translation of RunBacktestUseCase._calculate_position_cost
(run_backtest.py): premium paid for bought positions only. -/
def calculate_position_cost (trade : BacktestTrade) : ℚ :=
  trade.positions.foldl
    (fun acc p => if 0 < p.quantity then acc + p.entry_price * (p.quantity : ℚ)
      else acc) 0

/-- Loop state of RunBacktestUseCase._calculate_max_drawdown
(run_backtest.py). -/
structure DrawdownAcc where
  peak : ℚ
  max_dd : ℚ
  max_dd_pct : ℚ
deriving DecidableEq, Repr

/-- One iteration of the drawdown loop. -/
def ddStep (s : DrawdownAcc) (value : ℚ) : DrawdownAcc :=
  let peak := if s.peak < value then value else s.peak
  let drawdown := peak - value
  let drawdown_pct := if 0 < peak then (drawdown / peak) * 100 else 0
  if s.max_dd < drawdown then ⟨peak, drawdown, drawdown_pct⟩
  else ⟨peak, s.max_dd, s.max_dd_pct⟩

/-- Translation of RunBacktestUseCase._calculate_max_drawdown
(run_backtest.py): running peak over the equity curve, returning the
largest peak-minus-value and the percentage taken of the peak where that
maximum was recorded. -/
def calculate_max_drawdown (equity_curve : List ℚ) : ℚ × ℚ :=
  match equity_curve with
  | [] => (0, 0)
  | x :: _ =>
    let s := equity_curve.foldl ddStep ⟨x, 0, 0⟩
    (s.max_dd, s.max_dd_pct)

/-- Modelled from the spec: the collaborator surface of the simulator whose
implementations are not under src — the weekly context manager timing and
data-access functions, the bias classifier, and the pricing gateway. -/
structure Collaborators where
  is_market_hours : Ts → Bool
  get_week_start : Ts → Ts
  get_previous_week_data : Ts → List BarData → Option (List BarData)
  compute_bias : WeeklyZones → List BarData → BiasResult
  get_expiry_for_week : Ts → Ts
  priceAt : PriceOracle

/-- Modelled from the spec: zone calculation of the weekly context manager —
zone size is 2.5 percent of the previous week range; the lower zone sits on
the week low, the upper zone hangs from the week high. -/
def calculate_zones (prev_week_bars : List BarData) : WeeklyZones :=
  let week_high := listMax (prev_week_bars.map (·.high))
  let week_low := listMin (prev_week_bars.map (·.low))
  let week_close := ((prev_week_bars.getLast?).map (·.close)).getD 0
  let zone_size := (week_high - week_low) * (25/1000)
  { prev_week_high := week_high
    prev_week_low := week_low
    prev_week_close := week_close
    upper_zone_top := week_high
    upper_zone_bottom := week_high - zone_size
    lower_zone_top := week_low + zone_size
    lower_zone_bottom := week_low }

/-- Modelled from the spec: the fresh weekly context built at a week
boundary — zones and bias recomputed from the previous week bars, trackers
cleared, the current bar becoming the first-hour bar and the first entry of
weekly_bars. -/
def reset_context (collab : Collaborators) (week_start : Ts)
    (current_bar : BarData) (prev_week_bars : List BarData) : WeeklyContext :=
  let zones := calculate_zones prev_week_bars
  { current_week_start := week_start
    zones := zones
    bias := collab.compute_bias zones prev_week_bars
    first_hour_bar := some current_bar
    weekly_bars := [current_bar]
    signal_triggered_this_week := false
    triggered_signal := none
    triggered_at := none
    s4_breakout_candle_high := none
    s8_breakdown_candle_low := none
    has_touched_upper_zone_this_week :=
      decide (zones.upper_zone_bottom ≤ current_bar.high)
    weekly_max_high := current_bar.high
    weekly_min_low := current_bar.low }

/-- Modelled from the spec: WeeklyContextManager.update_context — reset at
a week boundary, otherwise append the bar and update the incremental
trackers; the triggered flag persists within the week. -/
def update_context (collab : Collaborators) (ctx : Option WeeklyContext)
    (current_bar : BarData) (prev_week_bars : List BarData) : WeeklyContext :=
  let week_start := collab.get_week_start current_bar.timestamp
  match ctx with
  | some c =>
    if c.current_week_start = week_start then
      { c with
        weekly_bars := c.weekly_bars ++ [current_bar]
        weekly_max_high := qmax c.weekly_max_high current_bar.high
        weekly_min_low := qmin c.weekly_min_low current_bar.low
        has_touched_upper_zone_this_week :=
          c.has_touched_upper_zone_this_week ||
            decide (c.zones.upper_zone_bottom ≤ current_bar.high) }
    else reset_context collab week_start current_bar prev_week_bars
  | none => reset_context collab week_start current_bar prev_week_bars

/-- Embedding of the BacktestDailyResult record (run_backtest.py). -/
structure DailyResult where
  date : Nat
  starting_capital : ℚ
  ending_capital : ℚ
  daily_pnl : ℚ
  daily_return_percent : ℚ
  trades_opened : Nat
  trades_closed : Nat
  open_positions : Nat
deriving DecidableEq, Repr

/-- State threaded through the bar loop of
RunBacktestUseCase._run_backtest_logic (run_backtest.py).  Python aliases
the trade objects between all_trades and open_trades; the embedding keeps
one list of trades and a list of indices of the open ones. -/
structure SimState where
  current_capital : ℚ
  trades : List BacktestTrade
  open_idx : List Nat
  daily_results : List DailyResult
  current_date : Option Nat
  daily_starting_capital : ℚ
  context : Option WeeklyContext
deriving DecidableEq, Repr

/-- One step of RunBacktestUseCase._check_and_close_expiry_positions
(run_backtest.py): a still-open trade with a position at or past expiry is
closed as EXPIRED with reason Weekly expiry and leaves the open list. -/
def expiryFold (priceAt : PriceOracle) (bar : BarData)
    (acc : List BacktestTrade × List Nat × ℚ) (i : Nat) :
    List BacktestTrade × List Nat × ℚ :=
  match acc.1[i]? with
  | none => (acc.1, acc.2.1 ++ [i], acc.2.2)
  | some t =>
    if t.outcome == .OPEN then
      if t.positions.any (fun p => decide (p.expiry_date ≤ bar.timestamp)) then
        let r := close_trade priceAt t bar.timestamp bar.close .EXPIRED
          "Weekly expiry"
        (acc.1.set i r.1, acc.2.1, acc.2.2 + r.2)
      else (acc.1, acc.2.1 ++ [i], acc.2.2)
    else (acc.1, acc.2.1 ++ [i], acc.2.2)

/-- Translation of RunBacktestUseCase._check_and_close_expiry_positions
(run_backtest.py), folded over the open trades. -/
def check_and_close_expiry (priceAt : PriceOracle) (bar : BarData)
    (trades : List BacktestTrade) (open_idx : List Nat) :
    List BacktestTrade × List Nat × ℚ :=
  open_idx.foldl (expiryFold priceAt bar) (trades, [], 0)

/-- One step of RunBacktestUseCase._check_stop_losses (run_backtest.py):
bullish trades stop when the index close reaches the stop from above,
bearish trades from below; a stopped trade is closed as STOPPED with
reason Stop loss hit and leaves the open list. -/
def stopLossFold (priceAt : PriceOracle) (bar : BarData)
    (acc : List BacktestTrade × List Nat × ℚ) (i : Nat) :
    List BacktestTrade × List Nat × ℚ :=
  match acc.1[i]? with
  | none => (acc.1, acc.2.1 ++ [i], acc.2.2)
  | some t =>
    if t.outcome == .OPEN then
      let hit :=
        if t.direction == .BULLISH then
          decide (bar.close ≤ t.stop_loss_price)
        else
          decide (t.stop_loss_price ≤ bar.close)
      if hit then
        let r := close_trade priceAt t bar.timestamp bar.close .STOPPED
          "Stop loss hit"
        (acc.1.set i r.1, acc.2.1, acc.2.2 + r.2)
      else (acc.1, acc.2.1 ++ [i], acc.2.2)
    else (acc.1, acc.2.1 ++ [i], acc.2.2)

/-- Translation of RunBacktestUseCase._check_stop_losses
(run_backtest.py), folded over the open trades. -/
def check_stop_losses (priceAt : PriceOracle) (bar : BarData)
    (trades : List BacktestTrade) (open_idx : List Nat) :
    List BacktestTrade × List Nat × ℚ :=
  open_idx.foldl (stopLossFold priceAt bar) (trades, [], 0)

/-- The daily result snapshot written on a day change (run_backtest.py,
_run_backtest_logic). -/
def mkDailyResult (d : Nat) (s : SimState) : DailyResult :=
  { date := d
    starting_capital := s.daily_starting_capital
    ending_capital := s.current_capital
    daily_pnl := s.current_capital - s.daily_starting_capital
    daily_return_percent :=
      ((s.current_capital - s.daily_starting_capital) /
        s.daily_starting_capital) * 100
    trades_opened :=
      (s.trades.filter (fun t => t.entry_time.date == d)).length
    trades_closed :=
      (s.trades.filter (fun t =>
        match t.exit_time with
        | some et => et.date == d
        | none => false)).length
    open_positions := s.open_idx.length }

/-- Translation of the body of the bar loop of
RunBacktestUseCase._run_backtest_logic (run_backtest.py): skip non-market
bars, snapshot the day on a date change, skip the first 42 bars of warm-up,
skip bars without previous-week data, update the weekly context, close
expired and stopped trades, then evaluate signals and possibly open one
trade when nothing is open and nothing triggered yet this week. -/
def process_bar (collab : Collaborators) (params : BacktestParameters)
    (allBars : List BarData) (s : SimState) (ib : Nat × BarData) : SimState :=
  let i := ib.1
  let bar := ib.2
  if !(collab.is_market_hours bar.timestamp) then s
  else
    let s :=
      if s.current_date ≠ some bar.timestamp.date then
        { s with
          daily_results := s.daily_results ++
            (match s.current_date with
             | some d => [mkDailyResult d s]
             | none => [])
          current_date := some bar.timestamp.date
          daily_starting_capital := s.current_capital }
      else s
    if i < 7 * 6 then s
    else
      match collab.get_previous_week_data bar.timestamp (allBars.take i) with
      | none => s
      | some pw =>
        if pw.isEmpty then s
        else
          let ctx1 := update_context collab s.context bar pw
          let e := check_and_close_expiry collab.priceAt bar s.trades s.open_idx
          let l := check_stop_losses collab.priceAt bar e.1 e.2.1
          let s2 := { s with
            trades := l.1
            open_idx := l.2.1
            current_capital := s.current_capital + e.2.2 + l.2.2
            context := some ctx1 }
          if s2.open_idx.isEmpty && !ctx1.signal_triggered_this_week then
            let r := evaluate_all_signals bar ctx1
            let s3 := { s2 with context := some r.2 }
            if r.1.is_triggered && sigMem r.1.signal_type params.signals_to_test then
              match open_trade collab.get_expiry_for_week collab.priceAt
                  r.1 bar r.2 params with
              | some trade =>
                { s3 with
                  trades := s3.trades ++ [trade]
                  open_idx := s3.open_idx ++ [s3.trades.length]
                  current_capital :=
                    s3.current_capital - calculate_position_cost trade }
              | none => s3
            else s3
          else s2

/-- Result aggregate of a simulation run (run_backtest.py,
_run_backtest_logic results dictionary). -/
structure BacktestResults where
  final_capital : ℚ
  total_trades : Nat
  winning_trades : Nat
  losing_trades : Nat
  win_rate : ℚ
  total_pnl : ℚ
  total_return_percent : ℚ
  trades : List BacktestTrade
  daily_results : List DailyResult
  max_drawdown : ℚ
  max_drawdown_percent : ℚ
deriving Repr

/-- One step of the post-loop force close of _run_backtest_logic
(run_backtest.py): a surviving open trade is closed as EXPIRED with reason
Backtest ended at the last bar. -/
def finalCloseFold (priceAt : PriceOracle) (lastBar : BarData)
    (ts : List BacktestTrade) (i : Nat) : List BacktestTrade :=
  match ts[i]? with
  | some t =>
    if t.outcome == .OPEN then
      ts.set i (close_trade priceAt t lastBar.timestamp
        lastBar.close .EXPIRED "Backtest ended").1
    else ts
  | none => ts

/-- Translation of RunBacktestUseCase._run_backtest_logic
(run_backtest.py): fold the bar loop over the enumerated bar series, force
close surviving open trades as EXPIRED with reason Backtest ended at the
last bar, then compute the aggregate metrics and the drawdown over the
equity curve of initial capital plus daily ending capitals. -/
def run_backtest_logic (collab : Collaborators)
    (params : BacktestParameters) (bars : List BarData) : BacktestResults :=
  let init : SimState :=
    { current_capital := params.initial_capital
      trades := []
      open_idx := []
      daily_results := []
      current_date := none
      daily_starting_capital := params.initial_capital
      context := none }
  let s := bars.enum.foldl (process_bar collab params bars) init
  let lastBar := bars.getLast?.getD ⟨0, 0, 0, 0, 0⟩
  let finalTrades := s.open_idx.foldl
    (finalCloseFold collab.priceAt lastBar) s.trades
  let total_trades := finalTrades.length
  let winning := (finalTrades.filter (fun t => t.outcome == .WIN)).length
  let losing := (finalTrades.filter (fun t => t.outcome == .LOSS)).length
  let equity_curve :=
    params.initial_capital :: s.daily_results.map (·.ending_capital)
  let dd := calculate_max_drawdown equity_curve
  { final_capital := s.current_capital
    total_trades := total_trades
    winning_trades := winning
    losing_trades := losing
    win_rate :=
      if 0 < total_trades then ((winning : ℚ) / (total_trades : ℚ)) * 100
      else 0
    total_pnl := s.current_capital - params.initial_capital
    total_return_percent :=
      ((s.current_capital - params.initial_capital) /
        params.initial_capital) * 100
    trades := finalTrades
    daily_results := s.daily_results
    max_drawdown := dd.1
    max_drawdown_percent := dd.2 }

/-! Concrete instances used by counterexamples and witnesses. -/

/-- A neutral bias value. -/
def neutralBias : BiasResult :=
  { bias := .neutral, strength := 0, distance_to_resistance := 0,
    distance_to_support := 0 }

/-- A bearish bias value. -/
def bearishBias : BiasResult :=
  { bias := .bearish, strength := 0, distance_to_resistance := 0,
    distance_to_support := 0 }

/-- A single previous-week bar: high 26000, low 25000, close 25500. -/
def pwBar : BarData :=
  { timestamp := 100, «open» := 25500, high := 26000, low := 25000,
    close := 25500 }

/-- Zones derived from pwBar: support bottom 25000, zone size 25. -/
def wZones : WeeklyZones :=
  { prev_week_high := 26000
    prev_week_low := 25000
    prev_week_close := 25500
    upper_zone_top := 26000
    upper_zone_bottom := 25975
    lower_zone_top := 25025
    lower_zone_bottom := 25000 }

/-- Concrete collaborators: market hours from hour 42 on, weeks of 168
hours, a constant previous week, neutral bias, expiry at hour 300, and a
constant option price of 100. -/
def wCollab : Collaborators :=
  { is_market_hours := fun t => decide (42 ≤ t)
    get_week_start := fun t => t / 168 * 168
    get_previous_week_data := fun _ _ => some [pwBar]
    compute_bias := fun _ _ => neutralBias
    get_expiry_for_week := fun _ => 300
    priceAt := fun _ _ _ _ => some 100 }

/-- Run parameters requesting only S1, lot size 75, no hedging. -/
def wParams : BacktestParameters :=
  { lot_size := 75, signals_to_test := [.S1], use_hedging := false }

/-- Warm-up filler bar n, outside market hours. -/
def filler (n : Nat) : BarData :=
  { timestamp := n, «open» := 1, high := 1, low := 1, close := 1 }

/-- First bar of the test week: a bear-trap candle closing below support. -/
def wFb : BarData :=
  { timestamp := 168, «open» := 25100, high := 25150, low := 24980,
    close := 24990 }

/-- Second bar of the test week: recovery above the first bar low. -/
def wB2 : BarData :=
  { timestamp := 169, «open» := 25000, high := 25070, low := 25000,
    close := 25063 }

/-- The bar series of the concrete run: 42 warm-up fillers, then the
bear-trap week. -/
def wBars : List BarData := (List.range 42).map filler ++ [wFb, wB2]

/-- An inert default trade used to read the head of a trade list. -/
def dummyTrade : BacktestTrade :=
  { signal_type := .S2, direction := .BULLISH, entry_time := 0,
    index_price_at_entry := 0, stop_loss_price := 0, outcome := .OPEN }

/-- The weekly context after the first bar of the test week. -/
def wCtx1 : WeeklyContext :=
  { current_week_start := 168
    zones := wZones
    bias := neutralBias
    first_hour_bar := some wFb
    weekly_bars := [wFb]
    signal_triggered_this_week := false
    triggered_signal := none
    triggered_at := none
    s4_breakout_candle_high := none
    s8_breakdown_candle_low := none
    has_touched_upper_zone_this_week := false
    weekly_max_high := 25150
    weekly_min_low := 24980 }

/-- The first bar of the spec scenario for S1 (open 25151.10, close
25119.80, low 25041.90). -/
def s1SpecFb : BarData :=
  { timestamp := 168, «open» := 25151.1, high := 25160, low := 25041.9,
    close := 25119.8 }

/-- The second bar of the spec scenario for S1 (close 25063.95). -/
def s1SpecB2 : BarData :=
  { timestamp := 169, «open» := 25120, high := 25125, low := 25050,
    close := 25063.95 }

/-- Weekly context of the spec S1 scenario: support bottom 25000, the two
scenario bars seen, nothing triggered yet. -/
def s1SpecCtx : WeeklyContext :=
  { current_week_start := 168
    zones := wZones
    bias := neutralBias
    first_hour_bar := some s1SpecFb
    weekly_bars := [s1SpecFb, s1SpecB2]
    signal_triggered_this_week := false
    triggered_signal := none
    triggered_at := none
    s4_breakout_candle_high := none
    s8_breakdown_candle_low := none
    has_touched_upper_zone_this_week := false
    weekly_max_high := 25160
    weekly_min_low := 25041.9 }

/-- Zones with support bottom raised to 25150, the minimal change making
the spec S1 scenario actually satisfy the S1 conditions. -/
def s1AmendZones : WeeklyZones :=
  { prev_week_high := 26000
    prev_week_low := 25150
    prev_week_close := 25500
    upper_zone_top := 26000
    upper_zone_bottom := 25978.75
    lower_zone_top := 25171.25
    lower_zone_bottom := 25150 }

/-- The spec S1 scenario context with the amended zones. -/
def s1AmendCtx : WeeklyContext :=
  { s1SpecCtx with zones := s1AmendZones }

/-- Zones for the simultaneous S1 and S3 scenario: a narrow previous week
whose support and resistance bands are close together. -/
def dblZones : WeeklyZones :=
  { prev_week_high := 112
    prev_week_low := 100
    prev_week_close := 110
    upper_zone_top := 112
    upper_zone_bottom := 108
    lower_zone_top := 105
    lower_zone_bottom := 100 }

/-- First bar satisfying both the S1 base and the S3 base conditions. -/
def dblFb : BarData :=
  { timestamp := 168, «open» := 109, high := 109.5, low := 98.5, close := 99 }

/-- Second bar triggering both S1 and S3. -/
def dblB2 : BarData :=
  { timestamp := 169, «open» := 99, high := 100, low := 99, close := 99.5 }

/-- Context on which the S1 and S3 conditions hold simultaneously. -/
def dblCtx : WeeklyContext :=
  { current_week_start := 168
    zones := dblZones
    bias := bearishBias
    first_hour_bar := some dblFb
    weekly_bars := [dblFb, dblB2]
    signal_triggered_this_week := false
    triggered_signal := none
    triggered_at := none
    s4_breakout_candle_high := none
    s8_breakdown_candle_low := none
    has_touched_upper_zone_this_week := true
    weekly_max_high := 109.5
    weekly_min_low := 98.5 }

/-- The double-trigger context already marked as triggered. -/
def flaggedCtx : WeeklyContext :=
  { dblCtx with signal_triggered_this_week := true }

/-- Day-one bar of the C4 breakout scenario (the first-hour bar). -/
def c4B1 : BarData :=
  { timestamp := 0, «open» := 100, high := 110, low := 95, close := 105 }

/-- Day-two bullish candle closing above the first-hour high: it records
the breakout-candle high 120 without firing. -/
def c4B2 : BarData :=
  { timestamp := 24, «open» := 100, high := 120, low := 99, close := 115 }

/-- Day-two bar closing above the recorded breakout-candle high: the full
walk fires here. -/
def c4B3 : BarData :=
  { timestamp := 25, «open» := 118, high := 126, low := 117, close := 125 }

/-- Context of the C4 scenario. -/
def c4Ctx : WeeklyContext :=
  { current_week_start := 0
    zones := wZones
    bias := bearishBias
    first_hour_bar := some c4B1
    weekly_bars := [c4B1, c4B2, c4B3]
    signal_triggered_this_week := false
    triggered_signal := none
    triggered_at := none
    s4_breakout_candle_high := none
    s8_breakdown_candle_low := none
    has_touched_upper_zone_this_week := false
    weekly_max_high := 126
    weekly_min_low := 95 }

/-- A pricing gateway with no data at all. -/
def noneOracle : PriceOracle := fun _ _ _ _ => none

/-- A sold PUT position of quantity 75 at premium 100 (the spec commission
scenario with lot_size 75). -/
def c2PosA : BacktestPosition :=
  { position_type := .MAIN, option_type := .PE, strike_price := 25000,
    expiry_date := 240, entry_time := 100, entry_price := 100,
    quantity := -75 }

/-- A sold PUT position of quantity 100 at premium 100 (a run with
lot_size 100). -/
def c2PosB : BacktestPosition :=
  { position_type := .MAIN, option_type := .PE, strike_price := 25000,
    expiry_date := 240, entry_time := 100, entry_price := 100,
    quantity := -100 }

/-- Open trade holding the quantity-75 sold PUT. -/
def c2TradeA : BacktestTrade :=
  { signal_type := .S1, direction := .BULLISH, entry_time := 100,
    index_price_at_entry := 25100, stop_loss_price := 24800,
    outcome := .OPEN, positions := [c2PosA] }

/-- Open trade holding the quantity-100 sold PUT. -/
def c2TradeB : BacktestTrade :=
  { signal_type := .S1, direction := .BULLISH, entry_time := 100,
    index_price_at_entry := 25100, stop_loss_price := 24800,
    outcome := .OPEN, positions := [c2PosB] }

/-- A pricing gateway that resolves only the hedge strike 24550 (price 10)
and returns no price for anything else, in particular the main strike. -/
def c1Oracle : PriceOracle :=
  fun _ strike _ _ => if strike = 24550 then some 10 else none

/-- The triggered S1 result of the concrete bear-trap week. -/
def c1Signal : SignalResult :=
  SignalResult.from_signal .S1 24870 169 25063 (85/100)

/-- Parameters with hedging enabled and lot size 75. -/
def c1Params : BacktestParameters :=
  { lot_size := 75, signals_to_test := [.S1], use_hedging := true }

/-- The equity curve of the C9 witness. -/
def wCurve : List ℚ := [100, 50, 120, 80]

/-- Parameters requesting only S2 while the scenario triggers S1. -/
def c10Params : BacktestParameters :=
  { lot_size := 75, signals_to_test := [.S2], use_hedging := false }

/-- Simulator state before the second bar of the test week: no trades,
nothing open, context holding the first week bar. -/
def c10State : SimState :=
  { current_capital := 500000
    trades := []
    open_idx := []
    daily_results := []
    current_date := some 7
    daily_starting_capital := 500000
    context := some wCtx1 }

/-- The test-week context marked triggered, as left after the filtered
S1 trigger. -/
def c10FlaggedCtx : WeeklyContext :=
  { current_week_start := 168
    zones := wZones
    bias := neutralBias
    first_hour_bar := some wFb
    weekly_bars := [wFb, wB2]
    signal_triggered_this_week := true
    triggered_signal := some .S1
    triggered_at := some 169
    s4_breakout_candle_high := none
    s8_breakdown_candle_low := none
    has_touched_upper_zone_this_week := false
    weekly_max_high := 25150
    weekly_min_low := 25000 }

/-- Simulator state after the filtered trigger, context flagged. -/
def c10StateFlagged : SimState :=
  { c10State with context := some c10FlaggedCtx }

/-- A later bar of the same test week. -/
def wB3 : BarData :=
  { timestamp := 170, «open» := 25060, high := 25080, low := 25010,
    close := 25020 }

/-- The signal of each priority index, S1 first. -/
def sigOfIdx : Nat → SignalType
  | 0 => .S1
  | 1 => .S2
  | 2 => .S3
  | 3 => .S4
  | 4 => .S5
  | 5 => .S6
  | 6 => .S7
  | _ => .S8

/-- The trigger condition of the signal with priority index k, as a pure
predicate of the current bar and the weekly context (the arguments are
exactly those evaluate_all_signals passes to the k-th evaluator). -/
def triggersIdx (k : Nat) (current_bar : BarData)
    (ctx : WeeklyContext) : Bool :=
  match k with
  | 0 => (evaluate_s1 (ctx.weekly_bars.length == 2) ctx.weekly_bars.head?
      current_bar ctx).is_triggered
  | 1 => (evaluate_s2 (ctx.weekly_bars.length == 2) ctx.weekly_bars.head?
      current_bar ctx).is_triggered
  | 2 => (evaluate_s3 (ctx.weekly_bars.length == 2) ctx.weekly_bars.head?
      current_bar ctx.weekly_bars ctx).is_triggered
  | 3 => (evaluate_s4 ctx.weekly_bars.head? current_bar ctx.weekly_bars
      ctx).1.is_triggered
  | 4 => (evaluate_s5 ctx.weekly_bars.head? current_bar ctx).is_triggered
  | 5 => (evaluate_s6 (ctx.weekly_bars.length == 2) ctx.weekly_bars.head?
      current_bar ctx.weekly_bars ctx).is_triggered
  | 6 => (evaluate_s7 current_bar ctx.weekly_bars ctx).1.is_triggered
  | 7 => (evaluate_s8 current_bar ctx.weekly_bars ctx).1.is_triggered
  | _ => false

/-! Claim theorems. -/

/-- C5 counterexample: on the spec scenario numbers (first bar open
25151.10, close 25119.80, low 25041.90, support bottom 25000, second bar
close 25063.95) S1 does NOT trigger, because the first bar close 25119.80
is not below the support bottom 25000; the whole evaluator returns
no-signal there as well. -/
theorem c5_s1_counterexample :
    evaluate_s1 true (some s1SpecFb) s1SpecB2 s1SpecCtx =
      SignalResult.no_signal ∧
    (evaluate_all_signals s1SpecB2 s1SpecCtx).1.is_triggered = false := by
  decide

/-- C2: the commission of a closed position is hardcoded as
(|quantity| // 50) × 40 × 2 in _close_trade, not derived from the run's
lot_size and commission_per_lot parameters (which the close path never
reads).  On the spec scenario — sold PUT, quantity 75, entry premium 100,
expired out of the money at index 26000, lot_size 75 — the hardcoded
formula happens to give the claimed 80 and net P&L 7420; but for a run
with lot_size 100 (quantity 100, commission_per_lot 40) the code charges
(100 // 50) × 40 × 2 = 160 while the claimed formula
(100 // 100) × 40 × 2 gives 80. -/
theorem c2_commission_hardcoded :
    ((close_trade noneOracle c2TradeA 240 26000 .EXPIRED
        "Weekly expiry").1.positions.map (·.gross_pnl) = [7500] ∧
      (close_trade noneOracle c2TradeA 240 26000 .EXPIRED
        "Weekly expiry").1.positions.map (·.commission) = [80] ∧
      (close_trade noneOracle c2TradeA 240 26000 .EXPIRED
        "Weekly expiry").1.total_pnl = 7420) ∧
    ((close_trade noneOracle c2TradeB 240 26000 .EXPIRED
        "Weekly expiry").1.positions.map (·.commission) = [160] ∧
      ¬ ((160 : ℚ) = ((100 / 100) * 40 * 2 : ℚ))) := by
  decide

/-- C9 counterexample: on the equity curve [100, -50] the computed maximum
drawdown is 150 with percentage 150, yet every running peak of this curve
is at most 100 (its largest element), so the drawdown exceeds the peak
capital at the point where it is attained and the percentage exceeds
100. -/
theorem c9_drawdown_counterexample :
    (calculate_max_drawdown [100, -50]).1 = 150 ∧
    (calculate_max_drawdown [100, -50]).2 = 150 ∧
    listMax [100, -50] = 100 ∧
    ¬ ((calculate_max_drawdown [100, -50]).1 ≤ 100) := by
  decide

/-- C1 counterexample: opening a trade whose MAIN leg price resolves to
none is not abandoned — with hedging enabled the trade is created and
returned for tracking, carries exactly one position (the bought hedge at
strike 24550, price 10), and its position cost 10 × 75 = 750 is deducted
from capital, which is not zero. -/
theorem c1_open_trade_counterexample :
    (open_trade (fun _ => 300) c1Oracle c1Signal wB2 wCtx1 c1Params).isSome
      = true ∧
    ((open_trade (fun _ => 300) c1Oracle c1Signal wB2 wCtx1
        c1Params).getD dummyTrade).positions.map (·.position_type) =
      [.HEDGE] ∧
    calculate_position_cost ((open_trade (fun _ => 300) c1Oracle c1Signal
      wB2 wCtx1 c1Params).getD dummyTrade) = 750 ∧
    ¬ ((750 : ℚ) = 0) := by
  decide

/-- C4 counterexample: on the week c4B1, c4B2, c4B3 the code's S4 trigger
check returns false — its just-fired test re-runs the SIMPLIFIED check
(any earlier bar closing above the first-hour high) on the prefix, and
c4B2 closes above the first-hour high — while the claim's version, which
re-runs the same full walk on the prefix, returns true, because the full
walk does not fire on the prefix (c4B2 only records the breakout-candle
high) but fires on the whole week.  The two checks are therefore not the
same function applied to prefix and whole. -/
theorem c4_just_fired_counterexample :
    (check_s4_trigger [c4B1, c4B2, c4B3] c4Ctx).1 = false ∧
    check_s4_trigger_claim [c4B1, c4B2, c4B3] c4Ctx = true := by
  decide

/-- The running sum inside _close_trade equals the list sum of the mapped
net P&L values. -/
lemma foldl_add_netpnl (l : List BacktestPosition) (a : ℚ) :
    l.foldl (fun acc p => acc + p.net_pnl) a =
      a + (l.map BacktestPosition.net_pnl).sum := by
  induction l generalizing a with
  | nil => simp
  | cons p l ih => simp [ih, add_assoc]

/-- C7: for every trade closed by the simulator, total_pnl is exactly the
sum of the closed positions' net_pnl, and the final outcome is WIN when
that total is positive, LOSS when negative, and the outcome passed by the
caller (EXPIRED or STOPPED) unchanged when the total is exactly zero. -/
theorem c7_total_pnl_and_outcome :
    ∀ (priceAt : PriceOracle) (trade : BacktestTrade) (exit_time : Ts)
      (index_price : ℚ) (outcome : TradeOutcome) (reason : String),
      (close_trade priceAt trade exit_time index_price outcome
          reason).1.total_pnl =
        ((close_trade priceAt trade exit_time index_price outcome
          reason).1.positions.map BacktestPosition.net_pnl).sum ∧
      (close_trade priceAt trade exit_time index_price outcome
          reason).1.outcome =
        (if 0 < (close_trade priceAt trade exit_time index_price outcome
            reason).1.total_pnl then TradeOutcome.WIN
         else if (close_trade priceAt trade exit_time index_price outcome
            reason).1.total_pnl < 0 then TradeOutcome.LOSS
         else outcome) := by
  intro priceAt trade exit_time index_price outcome reason
  constructor
  · simp [close_trade, foldl_add_netpnl]
  · simp [close_trade, foldl_add_netpnl]

/-- C5 (amended): S1 triggers exactly when evaluated on the week's second
bar with first_bar.open at or above the support bottom, first_bar.close
below the support bottom, and the current close above the first bar low;
its stop loss is then first_bar.low minus the absolute difference of the
first bar open and close.  The spec's concrete scenario satisfies the
conditions only with the support bottom amended from 25000 to 25150 (the
scenario close 25119.80 is not below 25000); with that amendment S1
triggers with stop loss 25041.90 − 31.30 = 25010.60. -/
theorem c5_s1_amended :
    (∀ (is_second_bar : Bool) (fb current_bar : BarData)
        (ctx : WeeklyContext),
      ((evaluate_s1 is_second_bar (some fb) current_bar ctx).is_triggered =
          true ↔
        (is_second_bar = true ∧
          ctx.zones.lower_zone_bottom ≤ fb.«open» ∧
          fb.close < ctx.zones.lower_zone_bottom ∧
          fb.low < current_bar.close)) ∧
      ((evaluate_s1 is_second_bar (some fb) current_bar ctx).is_triggered =
          true →
        (evaluate_s1 is_second_bar (some fb) current_bar ctx).stop_loss =
          some (fb.low - qabs (fb.«open» - fb.close)))) ∧
    evaluate_s1 true (some s1SpecFb) s1SpecB2 s1AmendCtx =
      SignalResult.from_signal .S1 25010.6 169 25063.95 (85/100) := by
  constructor
  · intro is_second_bar fb current_bar ctx
    cases is_second_bar with
    | false =>
      constructor
      · simp [evaluate_s1, SignalResult.no_signal]
      · intro h
        simp [evaluate_s1, SignalResult.no_signal] at h
    | true =>
      constructor
      · simp only [evaluate_s1]
        split
        · rename_i h
          simp [SignalResult.from_signal, h]
        · rename_i h
          simp only [SignalResult.no_signal]
          constructor
          · intro hfalse
            exact absurd hfalse (by simp)
          · intro hc
            exact absurd ⟨hc.2.1, hc.2.2.1, hc.2.2.2⟩ h
      · simp only [evaluate_s1]
        split
        · intro _
          simp [SignalResult.from_signal, BarData.body_range]
        · intro h
          simp [SignalResult.no_signal] at h
  · decide

/-- C1 (amended): when the pricing gateway returns no price for the MAIN
leg, _open_trade does not abandon the trade — it still returns a trade
record (to be tracked by the caller) that carries no MAIN position; with
hedging disabled the trade has no positions at all and zero position
cost, and with hedging enabled it may carry a bought HEDGE position whose
premium is deducted from capital.  The trade is abandoned (None) only when
the Python body raises an exception. -/
theorem c1_open_trade_amended :
    ∀ (get_expiry_for_week : Ts → Ts) (priceAt : PriceOracle)
      (sr : SignalResult) (bar : BarData) (ctx : WeeklyContext)
      (params : BacktestParameters) (st : SignalType)
      (dir : TradeDirection) (ep sl : ℚ) (ok : OptionKind),
      sr.signal_type = some st → sr.direction = some dir →
      sr.entry_price = some ep → sr.stop_loss = some sl →
      sr.option_type = some ok →
      priceAt bar.timestamp
        (get_option_strikes_for_signal bar.close st params.hedge_offset).1
        ok (get_expiry_for_week ctx.current_week_start) = none →
      ∃ t, open_trade get_expiry_for_week priceAt sr bar ctx params =
          some t ∧
        (∀ p ∈ t.positions, p.position_type = PositionType.HEDGE) ∧
        (params.use_hedging = false →
          t.positions = [] ∧ calculate_position_cost t = 0) := by
  intro gx priceAt sr bar ctx params st dir ep sl ok hst hdir hep hsl hok
    hmain
  simp only [open_trade, hst, hdir, hep, hsl, hok, hmain, priceTruthy]
  refine ⟨_, rfl, ?_, ?_⟩
  · split
    · split
      · intro p hp
        simp at hp
        simp [hp]
      · intro p hp
        simp at hp
    · intro p hp
      simp at hp
  · intro hh
    simp only [hh]
    simp [calculate_position_cost]


/-- One drawdown step never makes the recorded maximum negative. -/
lemma ddStep_nonneg (s : DrawdownAcc) (v : ℚ) (h : 0 ≤ s.max_dd) :
    0 ≤ (ddStep s v).max_dd := by
  rcases lt_or_le s.peak v with hpv | hpv
  · simp only [ddStep, if_pos hpv]
    split
    · rename_i hlt
      simp only
      linarith
    · exact h
  · simp only [ddStep, if_neg (not_lt.mpr hpv)]
    split
    · rename_i hlt
      simp only
      linarith
    · exact h

/-- The drawdown fold never makes the recorded maximum negative. -/
lemma dd_fold_nonneg (l : List ℚ) (s : DrawdownAcc) (h : 0 ≤ s.max_dd) :
    0 ≤ (l.foldl ddStep s).max_dd := by
  induction l generalizing s with
  | nil => exact h
  | cons v rest ih => exact ih _ (ddStep_nonneg s v h)

/-- One drawdown step on a nonnegative value preserves the full invariant:
nonnegative peak bounded by the running maximum, nonnegative recorded
drawdown at most the peak, percentage at most 100. -/
lemma ddStep_invariant (s : DrawdownAcc) (v m : ℚ) (hv : 0 ≤ v)
    (hp : 0 ≤ s.peak) (hd : 0 ≤ s.max_dd) (hpct : s.max_dd_pct ≤ 100)
    (hdp : s.max_dd ≤ s.peak) (hpm : s.peak ≤ m) :
    0 ≤ (ddStep s v).peak ∧ 0 ≤ (ddStep s v).max_dd ∧
    (ddStep s v).max_dd_pct ≤ 100 ∧
    (ddStep s v).max_dd ≤ (ddStep s v).peak ∧
    (ddStep s v).peak ≤ qmax m v := by
  have hqm : m ≤ qmax m v := by
    simp only [qmax]
    split
    · rename_i hlt
      exact le_of_lt hlt
    · exact le_refl m
  have hqv : v ≤ qmax m v := by
    simp only [qmax]
    split
    · exact le_refl v
    · rename_i hnl
      exact le_trans (le_of_not_lt hnl) (le_refl m)
  rcases lt_or_le s.peak v with hpv | hpv
  · simp only [ddStep, if_pos hpv, sub_self]
    rw [if_neg (not_lt.mpr hd)]
    exact ⟨hv, hd, hpct, by linarith, hqv⟩
  · simp only [ddStep, if_neg (not_lt.mpr hpv)]
    split
    · rename_i hlt
      refine ⟨hp, by simp only; linarith, ?_, by simp only; linarith,
        le_trans hpm hqm⟩
      simp only
      split
      · rename_i hpos
        rw [div_mul_eq_mul_div, div_le_iff₀ hpos]
        linarith
      · norm_num
    · exact ⟨hp, hd, hpct, le_trans hdp (le_refl _), le_trans hpm hqm⟩

/-- Invariant of the drawdown fold over nonnegative equity values. -/
lemma dd_fold_invariant (l : List ℚ) (s : DrawdownAcc) (m : ℚ)
    (hl : ∀ v ∈ l, 0 ≤ v) (hp : 0 ≤ s.peak) (hd : 0 ≤ s.max_dd)
    (hpct : s.max_dd_pct ≤ 100) (hdp : s.max_dd ≤ s.peak)
    (hpm : s.peak ≤ m) :
    0 ≤ (l.foldl ddStep s).peak ∧ 0 ≤ (l.foldl ddStep s).max_dd ∧
    (l.foldl ddStep s).max_dd_pct ≤ 100 ∧
    (l.foldl ddStep s).max_dd ≤ (l.foldl ddStep s).peak ∧
    (l.foldl ddStep s).peak ≤ l.foldl qmax m := by
  induction l generalizing s m with
  | nil => exact ⟨hp, hd, hpct, hdp, hpm⟩
  | cons v rest ih =>
    have hv : 0 ≤ v := hl v (by simp)
    have hl' : ∀ w ∈ rest, 0 ≤ w := fun w hw => hl w (by simp [hw])
    obtain ⟨h1, h2, h3, h4, h5⟩ := ddStep_invariant s v m hv hp hd hpct
      hdp hpm
    simp only [List.foldl_cons]
    exact ih (ddStep s v) (qmax m v) hl' h1 h2 h3 h4 h5

/-- After one step on the curve head, the accumulator is unchanged. -/
lemma ddStep_head (x : ℚ) : ddStep ⟨x, 0, 0⟩ x = ⟨x, 0, 0⟩ := by
  simp [ddStep]

/-- C9 (amended): the computed maximum drawdown is always nonnegative; when
every equity value is nonnegative (capital never goes below zero) it is
also at most the running-peak capital at the point where it is attained —
expressed by its percentage of that peak being at most 100 — and at most
the overall running peak of the curve.  Without the nonnegativity
assumption the drawdown can exceed the peak, as the counterexample
[100, -50] shows. -/
theorem c9_drawdown_amended :
    ∀ curve : List ℚ,
      0 ≤ (calculate_max_drawdown curve).1 ∧
      ((∀ v ∈ curve, 0 ≤ v) →
        (calculate_max_drawdown curve).2 ≤ 100 ∧
        (calculate_max_drawdown curve).1 ≤ curve.foldl qmax 0) := by
  intro curve
  match curve with
  | [] => exact ⟨le_refl 0, fun _ => ⟨by decide, le_refl 0⟩⟩
  | x :: rest =>
    constructor
    · exact dd_fold_nonneg _ _ (le_refl 0)
    · intro hnn
      have hx : 0 ≤ x := hnn x (by simp)
      have hrest : ∀ v ∈ rest, 0 ≤ v := fun v hv => hnn v (by simp [hv])
      have hxm : x ≤ qmax 0 x := by
        simp only [qmax]
        split
        · exact le_refl x
        · rename_i hnl
          exact le_of_not_lt hnl
      have h := dd_fold_invariant rest ⟨x, 0, 0⟩ (qmax 0 x) hrest hx
        (le_refl 0) (by norm_num) hx hxm
      simp only [calculate_max_drawdown, List.foldl_cons, ddStep_head]
      refine ⟨h.2.2.1, ?_⟩
      calc (rest.foldl ddStep ⟨x, 0, 0⟩).max_dd ≤
            (rest.foldl ddStep ⟨x, 0, 0⟩).peak := h.2.2.2.1
        _ ≤ rest.foldl qmax (qmax 0 x) := h.2.2.2.2

/-- The S4 trigger check only writes the breakout-candle field: the
triggered flag of the returned context is that of the input. -/
lemma check_s4_snd_flag (bars : List BarData) (ctx : WeeklyContext) :
    (check_s4_trigger bars ctx).2.signal_triggered_this_week =
      ctx.signal_triggered_this_week := by
  unfold check_s4_trigger
  split
  · rfl
  · split
    · rfl
    · split <;> rfl

/-- The S8 trigger check only writes the breakdown-candle field: the
triggered flag of the returned context is that of the input. -/
lemma check_s8_snd_flag (bars : List BarData) (ctx : WeeklyContext) :
    (check_s8_trigger bars ctx).2.signal_triggered_this_week =
      ctx.signal_triggered_this_week := by
  unfold check_s8_trigger
  split
  · rfl
  · split
    · rfl
    · split <;> rfl

/-- The S4 evaluator preserves the triggered flag of the context it
returns. -/
lemma evaluate_s4_snd_flag (fb : Option BarData) (bar : BarData)
    (bars : List BarData) (ctx : WeeklyContext) :
    (evaluate_s4 fb bar bars ctx).2.signal_triggered_this_week =
      ctx.signal_triggered_this_week := by
  simp only [evaluate_s4]
  repeat' split
  all_goals first | rfl | exact check_s4_snd_flag _ _

/-- The S7 evaluator preserves the triggered flag of the context it
returns. -/
lemma evaluate_s7_snd_flag (bar : BarData) (bars : List BarData)
    (ctx : WeeklyContext) :
    (evaluate_s7 bar bars ctx).2.signal_triggered_this_week =
      ctx.signal_triggered_this_week := by
  simp only [evaluate_s7]
  repeat' split
  all_goals first | rfl | exact check_s4_snd_flag _ _

/-- The S8 evaluator preserves the triggered flag of the context it
returns. -/
lemma evaluate_s8_snd_flag (bar : BarData) (bars : List BarData)
    (ctx : WeeklyContext) :
    (evaluate_s8 bar bars ctx).2.signal_triggered_this_week =
      ctx.signal_triggered_this_week := by
  simp only [evaluate_s8]
  repeat' split
  all_goals first | rfl | exact check_s8_snd_flag _ _

/-- The evaluator loop marks the returned context as triggered exactly when
its result is triggered, provided every evaluator in the list preserves
the flag. -/
lemma runEvaluators_snd_flag (fs : List SigEvaluator) (c : WeeklyContext)
    (h : ∀ f ∈ fs, ∀ d : WeeklyContext,
      (f d).2.signal_triggered_this_week = d.signal_triggered_this_week) :
    (runEvaluators fs c).2.signal_triggered_this_week =
      ((runEvaluators fs c).1.is_triggered ||
        c.signal_triggered_this_week) := by
  induction fs generalizing c with
  | nil => simp [runEvaluators, SignalResult.no_signal]
  | cons f fs ih =>
    simp only [runEvaluators]
    split
    · rename_i ht
      simp [markTriggered, ht]
    · rename_i ht
      rw [ih _ (fun g hg d => h g (by simp [hg]) d)]
      rw [h f (by simp) c]

/-- Every evaluator in the ordered evaluator list preserves the triggered
flag. -/
lemma evaluators_flag_pres (is_second_bar : Bool)
    (first_bar : Option BarData) (current_bar : BarData)
    (weekly_bars : List BarData) :
    ∀ f ∈ evaluators is_second_bar first_bar current_bar weekly_bars,
      ∀ d : WeeklyContext,
        (f d).2.signal_triggered_this_week =
          d.signal_triggered_this_week := by
  intro f hf d
  simp only [evaluators, List.mem_cons] at hf
  rcases hf with h | h | h | h | h | h | h | h | h
  · subst h; rfl
  · subst h; rfl
  · subst h; rfl
  · subst h; exact evaluate_s4_snd_flag _ _ _ _
  · subst h; rfl
  · subst h; rfl
  · subst h; exact evaluate_s7_snd_flag _ _ _
  · subst h; exact evaluate_s8_snd_flag _ _ _
  · exact absurd h (List.not_mem_nil f)

/-- Evaluation with the weekly triggered flag already set returns the
no-signal sentinel and the context unchanged. -/
lemma evaluate_all_flagged (bar : BarData) (ctx : WeeklyContext)
    (h : ctx.signal_triggered_this_week = true) :
    evaluate_all_signals bar ctx = (SignalResult.no_signal, ctx) := by
  simp [evaluate_all_signals, h]

/-- The triggered flag of the context returned by evaluate_all_signals is
the disjunction of the result being triggered with the incoming flag. -/
lemma evaluate_all_snd_flag (bar : BarData) (ctx : WeeklyContext) :
    (evaluate_all_signals bar ctx).2.signal_triggered_this_week =
      ((evaluate_all_signals bar ctx).1.is_triggered ||
        ctx.signal_triggered_this_week) := by
  unfold evaluate_all_signals
  split
  · rename_i h
    simp [SignalResult.no_signal, h]
  · split
    · simp [SignalResult.no_signal]
    · exact runEvaluators_snd_flag _ _ (evaluators_flag_pres _ _ _ _)

/-- C3: at most one signal triggers per week — with the weekly flag set,
evaluate_all_signals returns no-signal and leaves the context untouched;
and whenever it returns a triggered signal it sets
signal_triggered_this_week on the returned (passed-in, mutated) context,
so every subsequent evaluation against that context returns no-signal. -/
theorem c3_one_signal_per_week :
    ∀ (current_bar : BarData) (ctx : WeeklyContext),
      (ctx.signal_triggered_this_week = true →
        evaluate_all_signals current_bar ctx =
          (SignalResult.no_signal, ctx)) ∧
      ((evaluate_all_signals current_bar ctx).1.is_triggered = true →
        (evaluate_all_signals current_bar
          ctx).2.signal_triggered_this_week = true ∧
        ∀ later_bar : BarData,
          (evaluate_all_signals later_bar
            (evaluate_all_signals current_bar ctx).2).1 =
            SignalResult.no_signal) := by
  intro current_bar ctx
  refine ⟨fun h => evaluate_all_flagged current_bar ctx h, fun h => ?_⟩
  have hfl : (evaluate_all_signals current_bar
      ctx).2.signal_triggered_this_week = true := by
    rw [evaluate_all_snd_flag, h]
    rfl
  refine ⟨hfl, fun later_bar => ?_⟩
  rw [evaluate_all_flagged later_bar _ hfl]

/-- The simplified S4 check reads only the first-hour bar of the context. -/
lemma check_s4_simple_congr (l : List BarData) (c1 c2 : WeeklyContext)
    (h : c1.first_hour_bar = c2.first_hour_bar) :
    check_s4_trigger_simple l c1 = check_s4_trigger_simple l c2 := by
  unfold check_s4_trigger_simple
  rw [h]

/-- The simplified S8 check reads only the first-hour bar of the context. -/
lemma check_s8_simple_congr (l : List BarData) (c1 c2 : WeeklyContext)
    (h : c1.first_hour_bar = c2.first_hour_bar) :
    check_s8_trigger_simple l c1 = check_s8_trigger_simple l c2 := by
  unfold check_s8_trigger_simple
  rw [h]

/-- A list of length at least two is not empty. -/
lemma isEmpty_false_of_two_le {α : Type} (l : List α) (h : 2 ≤ l.length) :
    l.isEmpty = false := by
  cases l with
  | nil => simp at h
  | cons a l => rfl

/-- If the S4 walk fires from an unfired state whose candle (when present)
lies above the first-hour high, then some walked bar closes above the
first-hour high. -/
lemma s4_fired_sound (bars : List BarData) (fhh : ℚ) (fhd : Nat) :
    ∀ s : S4Walk, s.signal_fired = false →
    (∀ c, s.candle = some c → fhh < c) →
    (bars.foldl (s4Step fhh fhd) s).signal_fired = true →
    bars.any (fun b => decide (fhh < b.close)) = true := by
  induction bars with
  | nil =>
    intro s hs _ hfired
    rw [List.foldl_nil] at hfired
    rw [hs] at hfired
    exact absurd hfired (by simp)
  | cons b rest ih =>
    intro s hs hc hfired
    rw [List.foldl_cons] at hfired
    rw [List.any_cons]
    by_cases hday : b.timestamp.date = fhd
    · by_cases hclose : fhh < b.close
      · simp [hclose]
      · have hstep : s4Step fhh fhd s b =
            ⟨qmax s.highest_high b.high, false, s.candle⟩ := by
          simp [s4Step, hs, hday, hclose]
        rw [hstep] at hfired
        have := ih ⟨qmax s.highest_high b.high, false, s.candle⟩ rfl hc
          hfired
        simp [this]
    · cases hcand : s.candle with
      | none =>
        by_cases hrec : b.«open» < b.close ∧ fhh < b.close ∧
            s.highest_high ≤ b.high
        · simp [hrec.2.1]
        · have hstep : s4Step fhh fhd s b =
              ⟨qmax s.highest_high b.high, false, none⟩ := by
            simp [s4Step, hs, hday, hcand, hrec]
          rw [hstep] at hfired
          have := ih ⟨qmax s.highest_high b.high, false, none⟩ rfl
            (fun c hcc => by simp at hcc) hfired
          simp [this]
      | some c =>
        by_cases hfire : c < b.close
        · have : fhh < b.close := lt_trans (hc c hcand) hfire
          simp [this]
        · have hstep : s4Step fhh fhd s b =
              ⟨qmax s.highest_high b.high, false, some c⟩ := by
            simp [s4Step, hs, hday, hcand, hfire]
          rw [hstep] at hfired
          have := ih ⟨qmax s.highest_high b.high, false, some c⟩ rfl
            (fun d hd => by
              simp at hd
              rw [← hd]
              exact hc c hcand) hfired
          simp [this]

/-- If the S8 walk fires from an unfired state whose candle (when present)
lies below the first-hour low, then some walked bar closes below the
first-hour low. -/
lemma s8_fired_sound (bars : List BarData) (fhl : ℚ) (fhd : Nat) :
    ∀ s : S8Walk, s.signal_fired = false →
    (∀ c, s.candle = some c → c < fhl) →
    (bars.foldl (s8Step fhl fhd) s).signal_fired = true →
    bars.any (fun b => decide (b.close < fhl)) = true := by
  induction bars with
  | nil =>
    intro s hs _ hfired
    rw [List.foldl_nil] at hfired
    rw [hs] at hfired
    exact absurd hfired (by simp)
  | cons b rest ih =>
    intro s hs hc hfired
    rw [List.foldl_cons] at hfired
    rw [List.any_cons]
    by_cases hday : b.timestamp.date = fhd
    · by_cases hclose : b.close < fhl
      · simp [hclose]
      · have hstep : s8Step fhl fhd s b =
            ⟨lowMin s.lowest_low b.low, false, s.candle⟩ := by
          simp [s8Step, hs, hday, hclose]
        rw [hstep] at hfired
        have := ih ⟨lowMin s.lowest_low b.low, false, s.candle⟩ rfl hc
          hfired
        simp [this]
    · cases hcand : s.candle with
      | none =>
        by_cases hrec : b.close < b.«open» ∧ b.close < fhl ∧
            lowLE b.low s.lowest_low = true
        · simp [hrec.2.1]
        · have hstep : s8Step fhl fhd s b =
              ⟨lowMin s.lowest_low b.low, false, none⟩ := by
            simp only [s8Step, hs, hday, hcand]
            simp [hrec]
          rw [hstep] at hfired
          have := ih ⟨lowMin s.lowest_low b.low, false, none⟩ rfl
            (fun c hcc => by simp at hcc) hfired
          simp [this]
      | some c =>
        by_cases hfire : b.close < c
        · have : b.close < fhl := lt_trans hfire (hc c hcand)
          simp [this]
        · have hstep : s8Step fhl fhd s b =
              ⟨lowMin s.lowest_low b.low, false, some c⟩ := by
            simp [s8Step, hs, hday, hcand, hfire]
          rw [hstep] at hfired
          have := ih ⟨lowMin s.lowest_low b.low, false, some c⟩ rfl
            (fun d hd => by
              simp at hd
              rw [← hd]
              exact hc c hcand) hfired
          simp [this]

/-- C4 (amended): the just-fired property of the S4 breakout trigger (and
the mirrored S8 breakdown trigger) is decided by re-running a SIMPLIFIED
check on all but the last bar — whether any of those bars closes above the
first-hour high (below the first-hour low for S8) — not by re-running the
same full walk; the full walk firing implies the simplified check fires on
the same bars (so the simplified check is a sound over-approximation of
the full one), but not conversely, which is what makes the two checks
different functions, as the counterexample shows. -/
theorem c4_just_fired_amended :
    (∀ (bars : List BarData) (ctx : WeeklyContext) (fh : BarData),
      ctx.first_hour_bar = some fh → 2 ≤ bars.length →
      (check_s4_trigger bars ctx).1 =
        ((s4Run fh.high fh.timestamp.date ctx.s4_breakout_candle_high
            bars).signal_fired &&
          !check_s4_trigger_simple bars.dropLast ctx)) ∧
    (∀ (bars : List BarData) (ctx : WeeklyContext) (fh : BarData),
      ctx.first_hour_bar = some fh → 2 ≤ bars.length →
      (check_s8_trigger bars ctx).1 =
        ((s8Run fh.low fh.timestamp.date ctx.s8_breakdown_candle_low
            bars).signal_fired &&
          !check_s8_trigger_simple bars.dropLast ctx)) ∧
    (∀ (bars : List BarData) (fhh : ℚ) (fhd : Nat),
      (s4Run fhh fhd none bars).signal_fired = true →
      bars.any (fun b => decide (fhh < b.close)) = true) ∧
    (∀ (bars : List BarData) (fhl : ℚ) (fhd : Nat),
      (s8Run fhl fhd none bars).signal_fired = true →
      bars.any (fun b => decide (b.close < fhl)) = true) := by
  refine ⟨?_, ?_, ?_, ?_⟩
  · intro bars ctx fh hfh hlen
    have hne := isEmpty_false_of_two_le bars hlen
    simp only [check_s4_trigger, hne, Bool.false_eq_true, if_false, hfh]
    rw [if_pos hlen]
    simp only
    rw [check_s4_simple_congr bars.dropLast _ ctx (by simp [hfh])]
  · intro bars ctx fh hfh hlen
    have hne := isEmpty_false_of_two_le bars hlen
    simp only [check_s8_trigger, hne, Bool.false_eq_true, if_false, hfh]
    rw [if_pos hlen]
    simp only
    rw [check_s8_simple_congr bars.dropLast _ ctx (by simp [hfh])]
  · intro bars fhh fhd hfired
    exact s4_fired_sound bars fhh fhd ⟨0, false, none⟩ rfl
      (fun c hc => by simp at hc) hfired
  · intro bars fhl fhd hfired
    exact s8_fired_sound bars fhl fhd ⟨none, false, none⟩ rfl
      (fun c hc => by simp at hc) hfired

/-- Once the S4 walk has fired, further bars leave the state unchanged. -/
lemma s4_fold_frozen (bars : List BarData) (fhh : ℚ) (fhd : Nat) :
    ∀ s : S4Walk, s.signal_fired = true →
      bars.foldl (s4Step fhh fhd) s = s := by
  induction bars with
  | nil => intro s _; rfl
  | cons b rest ih =>
    intro s hs
    rw [List.foldl_cons]
    have : s4Step fhh fhd s b = s := by simp [s4Step, hs]
    rw [this]
    exact ih s hs

/-- Once the S4 walk carries a breakout candle, it keeps it forever. -/
lemma s4_fold_candle_const (bars : List BarData) (fhh : ℚ) (fhd : Nat) :
    ∀ (s : S4Walk) (c : ℚ), s.candle = some c →
      (bars.foldl (s4Step fhh fhd) s).candle = some c := by
  induction bars with
  | nil => intro s c hs; exact hs
  | cons b rest ih =>
    intro s c hs
    rw [List.foldl_cons]
    by_cases hf : s.signal_fired
    · rw [s4_fold_frozen rest fhh fhd _ (by simp [s4Step, hf])]
      simp [s4Step, hf, hs]
    · refine ih _ c ?_
      simp only [s4Step, hf, Bool.false_eq_true, if_false]
      rw [hs]
      by_cases hday : b.timestamp.date = fhd
      · simp [hday, hs]
        split <;> rfl
      · simp [hday, hs]
        split <;> rfl

/-- Re-running the S4 walk with a matching or later candle state fires
whenever the original run fires: the second state must be unfired, agree
on the running highest high, and carry the candle the original run ends
with (or the original state carries no candle yet). -/
lemma s4_fold_fired_mono (bars : List BarData) (fhh : ℚ) (fhd : Nat) :
    ∀ s t : S4Walk,
      s.highest_high = t.highest_high →
      s.signal_fired = false → t.signal_fired = false →
      t.candle = (bars.foldl (s4Step fhh fhd) s).candle →
      (s.candle = t.candle ∨ s.candle = none) →
      (bars.foldl (s4Step fhh fhd) s).signal_fired = true →
      (bars.foldl (s4Step fhh fhd) t).signal_fired = true := by
  induction bars with
  | nil =>
    intro s t _ hs _ _ _ hfired
    rw [List.foldl_nil] at hfired
    rw [hs] at hfired
    exact absurd hfired (by simp)
  | cons b rest ih =>
    intro s t hH hs ht hTC hSC hfired
    rcases hSC with hEq | hNone
    · -- the two states are equal, the folds coincide
      have hst : s = t := by
        obtain ⟨sh, sf, sc⟩ := s
        obtain ⟨th, tf, tc⟩ := t
        simp only [S4Walk.mk.injEq]
        simp only at hs ht
        exact ⟨hH, by rw [hs, ht], hEq⟩
      rw [← hst]
      exact hfired
    · -- the original state has no candle yet
      by_cases htc : t.candle = none
      · have hst : s = t := by
          obtain ⟨sh, sf, sc⟩ := s
          obtain ⟨th, tf, tc⟩ := t
          simp only [S4Walk.mk.injEq]
          simp only at hs ht
          refine ⟨hH, by rw [hs, ht], ?_⟩
          simp only at hNone htc
          rw [hNone, htc]
        rw [← hst]
        exact hfired
      · obtain ⟨cT, hcT⟩ := Option.ne_none_iff_exists'.mp htc
        rw [List.foldl_cons] at hfired hTC ⊢
        by_cases hday : b.timestamp.date = fhd
        · -- same-day bar: identical firing condition on both sides
          by_cases hcl : fhh < b.close
          · have htstep : s4Step fhh fhd t b =
                ⟨qmax t.highest_high b.high, true, t.candle⟩ := by
              simp [s4Step, ht, hday, hcl]
            rw [htstep]
            rw [s4_fold_frozen rest fhh fhd _ rfl]
          · have hsstep : s4Step fhh fhd s b =
                ⟨qmax s.highest_high b.high, false, none⟩ := by
              simp [s4Step, hs, hday, hcl, hNone]
            have htstep : s4Step fhh fhd t b =
                ⟨qmax t.highest_high b.high, false, t.candle⟩ := by
              simp [s4Step, ht, hday, hcl]
            rw [hsstep] at hfired hTC
            rw [htstep]
            refine ih _ _ (by simp [hH]) rfl rfl ?_ (Or.inr rfl) hfired
            simpa using hTC
        · -- different day: the original state records or skips
          by_cases hrec : b.«open» < b.close ∧ fhh < b.close ∧
              s.highest_high ≤ b.high
          · -- the original run records the candle b.high here
            have hsstep : s4Step fhh fhd s b =
                ⟨qmax s.highest_high b.high, false, some b.high⟩ := by
              simp only [s4Step, hs, Bool.false_eq_true, if_false]
              rw [hNone]
              simp [hday, hrec]
            rw [hsstep] at hfired hTC
            have hcb : t.candle = some b.high := by
              rw [hTC, s4_fold_candle_const rest fhh fhd _ b.high rfl]
            by_cases hfb : b.high < b.close
            · have htstep : s4Step fhh fhd t b =
                  ⟨qmax t.highest_high b.high, true, t.candle⟩ := by
                simp only [s4Step, ht, Bool.false_eq_true, if_false]
                rw [hcb]
                simp [hday, hfb]
              rw [htstep]
              rw [s4_fold_frozen rest fhh fhd _ rfl]
            · have htstep : s4Step fhh fhd t b =
                  ⟨qmax t.highest_high b.high, false, some b.high⟩ := by
                simp only [s4Step, ht, Bool.false_eq_true, if_false]
                rw [hcb]
                simp [hday, hfb]
              rw [htstep]
              rw [hH] at hfired
              exact hfired
          · -- the original run does not record here
            have hsstep : s4Step fhh fhd s b =
                ⟨qmax s.highest_high b.high, false, none⟩ := by
              simp only [s4Step, hs, Bool.false_eq_true, if_false]
              rw [hNone]
              simp [hday, hrec]
            rw [hsstep] at hfired hTC
            by_cases hfb : cT < b.close
            · have htstep : s4Step fhh fhd t b =
                  ⟨qmax t.highest_high b.high, true, t.candle⟩ := by
                simp only [s4Step, ht, Bool.false_eq_true, if_false]
                rw [hcT]
                simp [hday, hfb]
              rw [htstep]
              rw [s4_fold_frozen rest fhh fhd _ rfl]
            · have htstep : s4Step fhh fhd t b =
                  ⟨qmax t.highest_high b.high, false, some cT⟩ := by
                simp only [s4Step, ht, Bool.false_eq_true, if_false]
                rw [hcT]
                simp [hday, hfb]
              rw [htstep]
              refine ih _ _ (by simp [hH]) rfl rfl ?_ (Or.inr rfl) hfired
              rw [← hcT]
              simpa using hTC

/-- Re-running the S4 walk over the same bars starting from the candle
state the first run ends with fires whenever the first run fires. -/
lemma s4Run_fired_stable (fhh : ℚ) (fhd : Nat) (c0 : Option ℚ)
    (bars : List BarData)
    (h : (s4Run fhh fhd c0 bars).signal_fired = true) :
    (s4Run fhh fhd (s4Run fhh fhd c0 bars).candle bars).signal_fired =
      true := by
  unfold s4Run at h ⊢
  refine s4_fold_fired_mono bars fhh fhd ⟨0, false, c0⟩
    ⟨0, false, (List.foldl (s4Step fhh fhd) ⟨0, false, c0⟩ bars).candle⟩
    rfl rfl rfl rfl ?_ h
  cases hc : c0 with
  | none => exact Or.inr rfl
  | some c =>
    refine Or.inl ?_
    simp only
    exact (s4_fold_candle_const bars fhh fhd _ c (by simp [hc])).symm

/-- The S4 evaluator returns either the untouched context or the context
returned by the S4 trigger check. -/
lemma evaluate_s4_snd_cases (fb : Option BarData) (bar : BarData)
    (bars : List BarData) (ctx : WeeklyContext) :
    (evaluate_s4 fb bar bars ctx).2 = ctx ∨
    (evaluate_s4 fb bar bars ctx).2 = (check_s4_trigger bars ctx).2 := by
  simp only [evaluate_s4]
  repeat' split
  all_goals first | exact Or.inl rfl | exact Or.inr rfl

/-- The S4 trigger check returns either the untouched context or the
context with only the breakout-candle field replaced by the walk's final
candle. -/
lemma check_s4_snd_cases (bars : List BarData) (ctx : WeeklyContext) :
    (check_s4_trigger bars ctx).2 = ctx ∨
    (∃ fh, ctx.first_hour_bar = some fh ∧
      (check_s4_trigger bars ctx).2 =
        {ctx with s4_breakout_candle_high :=
          (s4Run fh.high fh.timestamp.date ctx.s4_breakout_candle_high
            bars).candle}) := by
  unfold check_s4_trigger
  split
  · exact Or.inl rfl
  · split
    · exact Or.inl rfl
    · rename_i fh hfh
      split
      · exact Or.inr ⟨fh, hfh, rfl⟩
      · exact Or.inr ⟨fh, hfh, rfl⟩

/-- The S5 evaluator ignores the breakout-candle field of the context. -/
lemma evaluate_s5_congr (fb : Option BarData) (bar : BarData)
    (ctx : WeeklyContext) (x : Option ℚ) :
    evaluate_s5 fb bar {ctx with s4_breakout_candle_high := x} =
      evaluate_s5 fb bar ctx := rfl

/-- The S6 evaluator ignores the breakout-candle field of the context. -/
lemma evaluate_s6_congr (is_second_bar : Bool) (fb : Option BarData)
    (bar : BarData) (bars : List BarData) (ctx : WeeklyContext)
    (x : Option ℚ) :
    evaluate_s6 is_second_bar fb bar bars
        {ctx with s4_breakout_candle_high := x} =
      evaluate_s6 is_second_bar fb bar bars ctx := rfl

/-- The S5 evaluator is unchanged by the context mutation of the S4
evaluator. -/
lemma evaluate_s5_after_s4 (fb fb2 : Option BarData) (bar bar2 : BarData)
    (bars : List BarData) (ctx : WeeklyContext) :
    evaluate_s5 fb bar (evaluate_s4 fb2 bar2 bars ctx).2 =
      evaluate_s5 fb bar ctx := by
  rcases evaluate_s4_snd_cases fb2 bar2 bars ctx with h | h
  · rw [h]
  · rw [h]
    rcases check_s4_snd_cases bars ctx with hc | ⟨fh, _, hc⟩
    · rw [hc]
    · rw [hc]
      exact evaluate_s5_congr _ _ _ _

/-- The S6 evaluator is unchanged by the context mutation of the S4
evaluator. -/
lemma evaluate_s6_after_s4 (is_second_bar : Bool) (fb fb2 : Option BarData)
    (bar bar2 : BarData) (bars : List BarData) (ctx : WeeklyContext) :
    evaluate_s6 is_second_bar fb bar bars (evaluate_s4 fb2 bar2 bars ctx).2 =
      evaluate_s6 is_second_bar fb bar bars ctx := by
  rcases evaluate_s4_snd_cases fb2 bar2 bars ctx with h | h
  · rw [h]
  · rw [h]
    rcases check_s4_snd_cases bars ctx with hc | ⟨fh, _, hc⟩
    · rw [hc]
    · rw [hc]
      exact evaluate_s6_congr _ _ _ _ _ _

/-- If the S4 trigger check passes, it passes again on the context it
returned (the breakout-candle state it recorded). -/
lemma check_s4_fst_stable (bars : List BarData) (ctx : WeeklyContext)
    (h : (check_s4_trigger bars ctx).1 = true) :
    (check_s4_trigger bars (check_s4_trigger bars ctx).2).1 = true := by
  rcases check_s4_snd_cases bars ctx with hc | ⟨fh, hfh, hc⟩
  · rw [hc]
    exact h
  · rw [hc]
    by_cases hemp : bars.isEmpty
    · rw [check_s4_trigger] at h
      rw [if_pos hemp] at h
      exact absurd h (by simp)
    · have hfh2 : ({ctx with s4_breakout_candle_high :=
          (s4Run fh.high fh.timestamp.date ctx.s4_breakout_candle_high
            bars).candle} : WeeklyContext).first_hour_bar = some fh := by
        simp [hfh]
      simp only [check_s4_trigger, hemp, Bool.false_eq_true, if_false,
        hfh, hfh2] at h ⊢
      split at h
      · rename_i hlen
        rw [if_pos hlen]
        rw [Bool.and_eq_true] at h
        have hw := s4Run_fired_stable fh.high fh.timestamp.date
          ctx.s4_breakout_candle_high bars h.1
        rw [Bool.and_eq_true]
        refine ⟨hw, ?_⟩
        rw [check_s4_simple_congr bars.dropLast _ ctx (by simp [hfh])]
        rw [check_s4_simple_congr bars.dropLast _ ctx (by simp [hfh])]
          at h
        exact h.2
      · rename_i hlen
        rw [if_neg hlen]
        exact s4Run_fired_stable fh.high fh.timestamp.date
          ctx.s4_breakout_candle_high bars h

/-- Whether S7 triggers depends on the context only through its zones and
the outcome of the S4 trigger check. -/
lemma evaluate_s7_fst_congr (bar : BarData) (bars : List BarData)
    (c1 c2 : WeeklyContext) (hz : c1.zones = c2.zones)
    (hcheck : (check_s4_trigger bars c1).1 = (check_s4_trigger bars c2).1) :
    (evaluate_s7 bar bars c1).1.is_triggered =
      (evaluate_s7 bar bars c2).1.is_triggered := by
  simp only [evaluate_s7, hz, hcheck]
  repeat' split
  all_goals rfl

/-- A triggered S7 result stays triggered when the evaluator is re-run on
the context mutated by the S4 evaluator earlier in the same pass. -/
lemma evaluate_s7_triggered_after_s4 (bar bar2 : BarData)
    (fb2 : Option BarData) (bars : List BarData) (ctx : WeeklyContext)
    (h : (evaluate_s7 bar bars ctx).1.is_triggered = true) :
    (evaluate_s7 bar bars
      (evaluate_s4 fb2 bar2 bars ctx).2).1.is_triggered = true := by
  rcases evaluate_s4_snd_cases fb2 bar2 bars ctx with h4 | h4
  · rw [h4]
    exact h
  · rw [h4]
    have hcheck : (check_s4_trigger bars ctx).1 = true := by
      by_contra hn
      rw [Bool.not_eq_true] at hn
      simp only [evaluate_s7, hn] at h
      simp [SignalResult.no_signal] at h
    have hstable := check_s4_fst_stable bars ctx hcheck
    have hcongr := evaluate_s7_fst_congr bar bars
      (check_s4_trigger bars ctx).2 ctx ?_ ?_
    · rw [hcongr]
      exact h
    · rcases check_s4_snd_cases bars ctx with hc | ⟨fh, hfh, hc⟩
      · rw [hc]
      · rw [hc]
    · rw [hstable, hcheck]

/-- A triggered S1 result carries signal type S1. -/
lemma evaluate_s1_type (is_second_bar : Bool) (fb : Option BarData)
    (bar : BarData) (ctx : WeeklyContext) :
    (evaluate_s1 is_second_bar fb bar ctx).is_triggered = true →
    (evaluate_s1 is_second_bar fb bar ctx).signal_type =
      some SignalType.S1 := by
  unfold evaluate_s1
  dsimp only
  repeat' split
  all_goals intro h
  all_goals first | rfl | simp [SignalResult.no_signal] at h

/-- A triggered S2 result carries signal type S2. -/
lemma evaluate_s2_type (is_second_bar : Bool) (fb : Option BarData)
    (bar : BarData) (ctx : WeeklyContext) :
    (evaluate_s2 is_second_bar fb bar ctx).is_triggered = true →
    (evaluate_s2 is_second_bar fb bar ctx).signal_type =
      some SignalType.S2 := by
  unfold evaluate_s2
  dsimp only
  repeat' split
  all_goals intro h
  all_goals first | rfl | simp [SignalResult.no_signal] at h

/-- A triggered S3 result carries signal type S3. -/
lemma evaluate_s3_type (is_second_bar : Bool) (fb : Option BarData)
    (bar : BarData) (bars : List BarData) (ctx : WeeklyContext) :
    (evaluate_s3 is_second_bar fb bar bars ctx).is_triggered = true →
    (evaluate_s3 is_second_bar fb bar bars ctx).signal_type =
      some SignalType.S3 := by
  unfold evaluate_s3
  dsimp only
  repeat' split
  all_goals intro h
  all_goals first | rfl | simp [SignalResult.no_signal] at h

/-- A triggered S4 result carries signal type S4. -/
lemma evaluate_s4_type (fb : Option BarData) (bar : BarData)
    (bars : List BarData) (ctx : WeeklyContext) :
    (evaluate_s4 fb bar bars ctx).1.is_triggered = true →
    (evaluate_s4 fb bar bars ctx).1.signal_type = some SignalType.S4 := by
  unfold evaluate_s4
  dsimp only
  repeat' split
  all_goals intro h
  all_goals first | rfl | simp [SignalResult.no_signal] at h

/-- A triggered S5 result carries signal type S5. -/
lemma evaluate_s5_type (fb : Option BarData) (bar : BarData)
    (ctx : WeeklyContext) :
    (evaluate_s5 fb bar ctx).is_triggered = true →
    (evaluate_s5 fb bar ctx).signal_type = some SignalType.S5 := by
  unfold evaluate_s5
  dsimp only
  repeat' split
  all_goals intro h
  all_goals first | rfl | simp [SignalResult.no_signal] at h

/-- A triggered S6 result carries signal type S6. -/
lemma evaluate_s6_type (is_second_bar : Bool) (fb : Option BarData)
    (bar : BarData) (bars : List BarData) (ctx : WeeklyContext) :
    (evaluate_s6 is_second_bar fb bar bars ctx).is_triggered = true →
    (evaluate_s6 is_second_bar fb bar bars ctx).signal_type =
      some SignalType.S6 := by
  unfold evaluate_s6
  dsimp only
  repeat' split
  all_goals intro h
  all_goals first | rfl | simp [SignalResult.no_signal] at h

/-- A triggered S7 result carries signal type S7. -/
lemma evaluate_s7_type (bar : BarData) (bars : List BarData)
    (ctx : WeeklyContext) :
    (evaluate_s7 bar bars ctx).1.is_triggered = true →
    (evaluate_s7 bar bars ctx).1.signal_type = some SignalType.S7 := by
  unfold evaluate_s7
  dsimp only
  repeat' split
  all_goals intro h
  all_goals first | rfl | simp [SignalResult.no_signal] at h

/-- A triggered S8 result carries signal type S8. -/
lemma evaluate_s8_type (bar : BarData) (bars : List BarData)
    (ctx : WeeklyContext) :
    (evaluate_s8 bar bars ctx).1.is_triggered = true →
    (evaluate_s8 bar bars ctx).1.signal_type = some SignalType.S8 := by
  unfold evaluate_s8
  dsimp only
  repeat' split
  all_goals intro h
  all_goals first | rfl | simp [SignalResult.no_signal] at h

/-- With an empty weekly bar list no signal condition holds. -/
lemma triggersIdx_empty (k : Nat) (bar : BarData) (ctx : WeeklyContext)
    (h : ctx.weekly_bars = []) : triggersIdx k bar ctx = false := by
  unfold triggersIdx
  split
  all_goals
    simp [h, evaluate_s1, evaluate_s2, evaluate_s3, evaluate_s4,
      evaluate_s5, evaluate_s6, evaluate_s7, evaluate_s8,
      check_s4_trigger, check_s8_trigger, SignalResult.no_signal]

/-- C6: signal evaluation is first-match-wins in strict priority order
S1 to S8 — whenever the trigger conditions of two signals with indices
i < j both hold on a bar and weekly context (the flag not yet set), and no
signal of index below i holds (i is the first match), evaluate_all_signals
returns the triggered signal with index i; in particular when S1 and S3
are simultaneously satisfied, S1 wins. -/
theorem c6_priority_first_match :
    ∀ (current_bar : BarData) (ctx : WeeklyContext) (i j : Nat),
      ctx.signal_triggered_this_week = false →
      i < j → j ≤ 7 →
      triggersIdx i current_bar ctx = true →
      triggersIdx j current_bar ctx = true →
      (∀ k, k < i → triggersIdx k current_bar ctx = false) →
      (evaluate_all_signals current_bar ctx).1.is_triggered = true ∧
      (evaluate_all_signals current_bar ctx).1.signal_type =
        some (sigOfIdx i) := by
  intro bar ctx i j hflag hij hj hti htj hmin
  have hne : ctx.weekly_bars.isEmpty = false := by
    cases hw : ctx.weekly_bars with
    | nil =>
      rw [triggersIdx_empty i bar ctx hw] at hti
      exact absurd hti (by simp)
    | cons a l => rfl
  have heval : evaluate_all_signals bar ctx =
      runEvaluators (evaluators (ctx.weekly_bars.length == 2)
        ctx.weekly_bars.head? bar ctx.weekly_bars) ctx := by
    simp [evaluate_all_signals, hflag, hne]
  rw [heval]
  have hi6 : i ≤ 6 := by omega
  interval_cases i
  · simp only [triggersIdx] at hti
    simp only [evaluators, runEvaluators, hti, if_true]
    exact ⟨trivial, evaluate_s1_type _ _ _ _ hti⟩
  · have h0 := hmin 0 (by omega)
    simp only [triggersIdx] at hti h0
    simp only [evaluators, runEvaluators, hti, h0, Bool.false_eq_true,
      if_false, if_true]
    exact ⟨trivial, evaluate_s2_type _ _ _ _ hti⟩
  · have h0 := hmin 0 (by omega)
    have h1 := hmin 1 (by omega)
    simp only [triggersIdx] at hti h0 h1
    simp only [evaluators, runEvaluators, hti, h0, h1, Bool.false_eq_true,
      if_false, if_true]
    exact ⟨trivial, evaluate_s3_type _ _ _ _ _ hti⟩
  · have h0 := hmin 0 (by omega)
    have h1 := hmin 1 (by omega)
    have h2 := hmin 2 (by omega)
    simp only [triggersIdx] at hti h0 h1 h2
    simp only [evaluators, runEvaluators, hti, h0, h1, h2,
      Bool.false_eq_true, if_false, if_true]
    exact ⟨trivial, evaluate_s4_type _ _ _ _ hti⟩
  · have h0 := hmin 0 (by omega)
    have h1 := hmin 1 (by omega)
    have h2 := hmin 2 (by omega)
    have h3 := hmin 3 (by omega)
    simp only [triggersIdx] at hti h0 h1 h2 h3
    simp only [evaluators, runEvaluators, hti, h0, h1, h2, h3,
      evaluate_s5_after_s4, Bool.false_eq_true, if_false, if_true]
    exact ⟨trivial, evaluate_s5_type _ _ _ hti⟩
  · have h0 := hmin 0 (by omega)
    have h1 := hmin 1 (by omega)
    have h2 := hmin 2 (by omega)
    have h3 := hmin 3 (by omega)
    have h4 := hmin 4 (by omega)
    simp only [triggersIdx] at hti h0 h1 h2 h3 h4
    simp only [evaluators, runEvaluators, hti, h0, h1, h2, h3, h4,
      evaluate_s5_after_s4, evaluate_s6_after_s4, Bool.false_eq_true,
      if_false, if_true]
    exact ⟨trivial, evaluate_s6_type _ _ _ _ _ hti⟩
  · have h0 := hmin 0 (by omega)
    have h1 := hmin 1 (by omega)
    have h2 := hmin 2 (by omega)
    have h3 := hmin 3 (by omega)
    have h4 := hmin 4 (by omega)
    have h5 := hmin 5 (by omega)
    simp only [triggersIdx] at hti h0 h1 h2 h3 h4 h5
    have htr := evaluate_s7_triggered_after_s4 bar bar
      ctx.weekly_bars.head? ctx.weekly_bars ctx hti
    simp only [evaluators, runEvaluators, h0, h1, h2, h3, h4, h5, htr,
      evaluate_s5_after_s4, evaluate_s6_after_s4, Bool.false_eq_true,
      if_false, if_true]
    exact ⟨trivial, evaluate_s7_type _ _ _ htr⟩

/-! Machinery for C8: every trade the simulator ever records carries a
signal type that was requested in signals_to_test. -/

/-- Closing a trade leaves its signal type unchanged. -/
lemma close_trade_sig (priceAt : PriceOracle) (t : BacktestTrade)
    (et : Ts) (ip : ℚ) (oc : TradeOutcome) (rs : String) :
    (close_trade priceAt t et ip oc rs).1.signal_type = t.signal_type := rfl

/-- One expiry-check step keeps every trade's signal type inside L. -/
lemma expiryFold_sig (priceAt : PriceOracle) (bar : BarData)
    (acc : List BacktestTrade × List Nat × ℚ) (i : Nat)
    (L : List SignalType)
    (h : ∀ t ∈ acc.1, t.signal_type ∈ L) :
    ∀ t ∈ (expiryFold priceAt bar acc i).1, t.signal_type ∈ L := by
  unfold expiryFold
  cases hio : acc.1[i]? with
  | none => exact h
  | some t0 =>
    dsimp only
    split
    · split
      · intro t ht
        rcases List.mem_or_eq_of_mem_set ht with hm | he
        · exact h t hm
        · rw [he]
          exact h t0 (List.getElem?_mem hio)
      · exact h
    · exact h

/-- One stop-loss step keeps every trade's signal type inside L. -/
lemma stopLossFold_sig (priceAt : PriceOracle) (bar : BarData)
    (acc : List BacktestTrade × List Nat × ℚ) (i : Nat)
    (L : List SignalType)
    (h : ∀ t ∈ acc.1, t.signal_type ∈ L) :
    ∀ t ∈ (stopLossFold priceAt bar acc i).1, t.signal_type ∈ L := by
  unfold stopLossFold
  cases hio : acc.1[i]? with
  | none => exact h
  | some t0 =>
    dsimp only
    repeat' split
    all_goals
      first
      | exact h
      | (intro t ht
         rcases List.mem_or_eq_of_mem_set ht with hm | he
         · exact h t hm
         · rw [he]
           exact h t0 (List.getElem?_mem hio))

/-- The expiry-close pass keeps every trade's signal type inside L. -/
lemma check_expiry_sig (priceAt : PriceOracle) (bar : BarData)
    (L : List SignalType) :
    ∀ (idxs : List Nat) (acc : List BacktestTrade × List Nat × ℚ),
      (∀ t ∈ acc.1, t.signal_type ∈ L) →
      ∀ t ∈ (idxs.foldl (expiryFold priceAt bar) acc).1,
        t.signal_type ∈ L := by
  intro idxs
  induction idxs with
  | nil => exact fun acc h => h
  | cons i is ih =>
    exact fun acc h => ih _ (expiryFold_sig priceAt bar acc i L h)

/-- The stop-loss pass keeps every trade's signal type inside L. -/
lemma check_stop_sig (priceAt : PriceOracle) (bar : BarData)
    (L : List SignalType) :
    ∀ (idxs : List Nat) (acc : List BacktestTrade × List Nat × ℚ),
      (∀ t ∈ acc.1, t.signal_type ∈ L) →
      ∀ t ∈ (idxs.foldl (stopLossFold priceAt bar) acc).1,
        t.signal_type ∈ L := by
  intro idxs
  induction idxs with
  | nil => exact fun acc h => h
  | cons i is ih =>
    exact fun acc h => ih _ (stopLossFold_sig priceAt bar acc i L h)

/-- One final force-close step keeps every trade's signal type inside L. -/
lemma finalCloseFold_sig (priceAt : PriceOracle) (lastBar : BarData)
    (ts : List BacktestTrade) (i : Nat) (L : List SignalType)
    (h : ∀ t ∈ ts, t.signal_type ∈ L) :
    ∀ t ∈ finalCloseFold priceAt lastBar ts i, t.signal_type ∈ L := by
  unfold finalCloseFold
  cases hio : ts[i]? with
  | none => exact h
  | some t0 =>
    dsimp only
    split
    · intro t ht
      rcases List.mem_or_eq_of_mem_set ht with hm | he
      · exact h t hm
      · rw [he]
        exact h t0 (List.getElem?_mem hio)
    · exact h

/-- The final force-close pass keeps every trade's signal type inside L. -/
lemma final_close_sig (priceAt : PriceOracle) (lastBar : BarData)
    (L : List SignalType) :
    ∀ (idxs : List Nat) (ts : List BacktestTrade),
      (∀ t ∈ ts, t.signal_type ∈ L) →
      ∀ t ∈ idxs.foldl (finalCloseFold priceAt lastBar) ts,
        t.signal_type ∈ L := by
  intro idxs
  induction idxs with
  | nil => exact fun ts h => h
  | cons i is ih =>
    exact fun ts h => ih _ (finalCloseFold_sig priceAt lastBar ts i L h)

/-- A trade returned by _open_trade carries the signal type of the
triggered result that opened it. -/
lemma open_trade_sig (gw : Ts → Ts) (priceAt : PriceOracle)
    (sr : SignalResult) (bar : BarData) (ctx : WeeklyContext)
    (params : BacktestParameters) (t : BacktestTrade)
    (h : open_trade gw priceAt sr bar ctx params = some t) :
    sr.signal_type = some t.signal_type := by
  unfold open_trade at h
  split at h
  · rename_i st dir ep sl ok hst hdir hep hsl hok
    rw [hst]
    injection h with h2
    subst h2
    dsimp only
    repeat' split
    all_goals rfl
  · exact Option.noConfusion h

/-- A triggered type passing the signals_to_test membership test is a
member of that list. -/
lemma sigMem_sound (o : Option SignalType) (L : List SignalType)
    (s : SignalType) (ho : o = some s) (h : sigMem o L = true) : s ∈ L := by
  rw [ho] at h
  exact List.elem_iff.mp h

/-- The right conjunct of a true Boolean conjunction. -/
lemma band_right {a b : Bool} (h : (a && b) = true) : b = true := by
  rw [Bool.and_eq_true] at h
  exact h.2

/-- A trade list extended by one trade whose signal type is in L keeps
every signal type inside L. -/
lemma mem_append_one_sig (L : List SignalType) (l1 : List BacktestTrade)
    (tr : BacktestTrade) (h1 : ∀ t ∈ l1, t.signal_type ∈ L)
    (h2 : tr.signal_type ∈ L) :
    ∀ t ∈ l1 ++ [tr], t.signal_type ∈ L := by
  intro t ht
  rcases List.mem_append.mp ht with hm | hm
  · exact h1 t hm
  · rw [List.mem_singleton] at hm
    rw [hm]
    exact h2

/-- One bar of the simulator loop keeps every trade's signal type inside
the run's signals_to_test. -/
lemma process_bar_sig (collab : Collaborators) (params : BacktestParameters)
    (allBars : List BarData) (s : SimState) (ib : Nat × BarData)
    (h : ∀ t ∈ s.trades, t.signal_type ∈ params.signals_to_test) :
    ∀ t ∈ (process_bar collab params allBars s ib).trades,
      t.signal_type ∈ params.signals_to_test := by
  unfold process_bar
  dsimp only
  repeat' split
  all_goals
    first
    | exact h
    | exact check_stop_sig _ _ _ _ _ (check_expiry_sig _ _ _ _ _ h)
    | skip
  all_goals
    refine mem_append_one_sig _ _ _
      (check_stop_sig _ _ _ _ _ (check_expiry_sig _ _ _ _ _ h)) ?_
  all_goals
    exact sigMem_sound _ _ _ (open_trade_sig _ _ _ _ _ _ _ (by assumption))
      (band_right (by assumption))

/-- The whole bar loop keeps every trade's signal type inside the run's
signals_to_test. -/
lemma bars_fold_sig (collab : Collaborators) (params : BacktestParameters)
    (allBars : List BarData) :
    ∀ (l : List (Nat × BarData)) (s : SimState),
      (∀ t ∈ s.trades, t.signal_type ∈ params.signals_to_test) →
      ∀ t ∈ (l.foldl (process_bar collab params allBars) s).trades,
        t.signal_type ∈ params.signals_to_test := by
  intro l
  induction l with
  | nil => exact fun s h => h
  | cons x xs ih =>
    exact fun s h => ih _ (process_bar_sig collab params allBars s x h)

/-- Every trade of a finished run carries a signal type that was in the
run's signals_to_test. -/
lemma run_trades_sig (collab : Collaborators) (params : BacktestParameters)
    (bars : List BarData) :
    ∀ t ∈ (run_backtest_logic collab params bars).trades,
      t.signal_type ∈ params.signals_to_test := by
  unfold run_backtest_logic
  dsimp only
  intro t ht
  refine final_close_sig collab.priceAt _ params.signals_to_test _ _
    (bars_fold_sig collab params bars bars.enum _ ?_) t ht
  intro v hv
  exact absurd hv (List.not_mem_nil v)

/-- C8: a backtest run with signals_to_test = [S1] only ever records trades
whose signal_type is S1 — the simulator's trade list (after expiry closes,
stop-loss closes and the final force close) contains no trade of any other
type, whatever the bar series and collaborators do. -/
theorem c8_only_requested_signals (collab : Collaborators)
    (params : BacktestParameters) (bars : List BarData)
    (hS : params.signals_to_test = [SignalType.S1]) :
    ∀ t ∈ (run_backtest_logic collab params bars).trades,
      t.signal_type = SignalType.S1 := by
  intro t ht
  have h := run_trades_sig collab params bars t ht
  rw [hS] at h
  simpa using h

/-- C8 witness: on the concrete bear-trap run (42 warm-up bars, then a week
whose second bar triggers S1) with signals_to_test = [S1], every recorded
trade has signal type S1. -/
theorem c8_only_requested_signals_witness :
    (run_backtest_logic wCollab wParams wBars).trades.all
      (fun t => t.signal_type == SignalType.S1) = true := by
  have h := c8_only_requested_signals wCollab wParams wBars rfl
  rw [List.all_eq_true]
  intro t ht
  simp [h t ht]

/-! Machinery for C10: a triggered signal filtered out by signals_to_test
still flags the week. -/

/-- The S4 trigger check leaves the context's week start unchanged. -/
lemma check_s4_snd_week (bars : List BarData) (ctx : WeeklyContext) :
    (check_s4_trigger bars ctx).2.current_week_start =
      ctx.current_week_start := by
  unfold check_s4_trigger
  split
  · rfl
  · split
    · rfl
    · split <;> rfl

/-- The S8 trigger check leaves the context's week start unchanged. -/
lemma check_s8_snd_week (bars : List BarData) (ctx : WeeklyContext) :
    (check_s8_trigger bars ctx).2.current_week_start =
      ctx.current_week_start := by
  unfold check_s8_trigger
  split
  · rfl
  · split
    · rfl
    · split <;> rfl

/-- The S4 evaluator leaves the context's week start unchanged. -/
lemma evaluate_s4_snd_week (fb : Option BarData) (bar : BarData)
    (bars : List BarData) (ctx : WeeklyContext) :
    (evaluate_s4 fb bar bars ctx).2.current_week_start =
      ctx.current_week_start := by
  simp only [evaluate_s4]
  repeat' split
  all_goals first | rfl | exact check_s4_snd_week _ _

/-- The S7 evaluator leaves the context's week start unchanged. -/
lemma evaluate_s7_snd_week (bar : BarData) (bars : List BarData)
    (ctx : WeeklyContext) :
    (evaluate_s7 bar bars ctx).2.current_week_start =
      ctx.current_week_start := by
  simp only [evaluate_s7]
  repeat' split
  all_goals first | rfl | exact check_s4_snd_week _ _

/-- The S8 evaluator leaves the context's week start unchanged. -/
lemma evaluate_s8_snd_week (bar : BarData) (bars : List BarData)
    (ctx : WeeklyContext) :
    (evaluate_s8 bar bars ctx).2.current_week_start =
      ctx.current_week_start := by
  simp only [evaluate_s8]
  repeat' split
  all_goals first | rfl | exact check_s8_snd_week _ _

/-- The evaluator loop leaves the context's week start unchanged when every
evaluator in the list does. -/
lemma runEvaluators_snd_week (fs : List SigEvaluator) (c : WeeklyContext)
    (h : ∀ f ∈ fs, ∀ d : WeeklyContext,
      (f d).2.current_week_start = d.current_week_start) :
    (runEvaluators fs c).2.current_week_start = c.current_week_start := by
  induction fs generalizing c with
  | nil => rfl
  | cons f fs ih =>
    simp only [runEvaluators]
    split
    · exact h f (by simp) c
    · rw [ih _ (fun g hg d => h g (by simp [hg]) d)]
      exact h f (by simp) c

/-- Every evaluator in the ordered evaluator list leaves the week start
unchanged. -/
lemma evaluators_week_pres (is_second_bar : Bool)
    (first_bar : Option BarData) (current_bar : BarData)
    (weekly_bars : List BarData) :
    ∀ f ∈ evaluators is_second_bar first_bar current_bar weekly_bars,
      ∀ d : WeeklyContext,
        (f d).2.current_week_start = d.current_week_start := by
  intro f hf d
  simp only [evaluators, List.mem_cons] at hf
  rcases hf with h | h | h | h | h | h | h | h | h
  · subst h; rfl
  · subst h; rfl
  · subst h; rfl
  · subst h; exact evaluate_s4_snd_week _ _ _ _
  · subst h; rfl
  · subst h; rfl
  · subst h; exact evaluate_s7_snd_week _ _ _
  · subst h; exact evaluate_s8_snd_week _ _ _
  · exact absurd h (List.not_mem_nil f)

/-- Signal evaluation leaves the context's week start unchanged. -/
lemma evaluate_all_snd_week (bar : BarData) (ctx : WeeklyContext) :
    (evaluate_all_signals bar ctx).2.current_week_start =
      ctx.current_week_start := by
  unfold evaluate_all_signals
  split
  · rfl
  · split
    · rfl
    · exact runEvaluators_snd_week _ _ (evaluators_week_pres _ _ _ _)

/-- The context returned by update_context carries the week start of the
current bar. -/
lemma update_context_week (collab : Collaborators)
    (ctx : Option WeeklyContext) (bar : BarData) (pw : List BarData) :
    (update_context collab ctx bar pw).current_week_start =
      collab.get_week_start bar.timestamp := by
  unfold update_context
  cases ctx with
  | none => rfl
  | some c =>
    dsimp only
    split
    · rename_i h
      exact h
    · rfl

/-- Within the same week, update_context keeps the triggered flag. -/
lemma update_context_flag_keep (collab : Collaborators) (c : WeeklyContext)
    (bar : BarData) (pw : List BarData)
    (h : c.current_week_start = collab.get_week_start bar.timestamp) :
    (update_context collab (some c) bar pw).signal_triggered_this_week =
      c.signal_triggered_this_week := by
  unfold update_context
  dsimp only
  rw [if_pos h]

/-- With nothing open and the weekly flag already set, one simulator bar
within the same week changes no trade, opens nothing, and keeps a flagged
context of the same week. -/
lemma process_bar_flagged_step (collab : Collaborators)
    (params : BacktestParameters) (allBars : List BarData) (s : SimState)
    (ib : Nat × BarData) (c : WeeklyContext)
    (hctx : s.context = some c)
    (hflag : c.signal_triggered_this_week = true)
    (hweek : c.current_week_start = collab.get_week_start ib.2.timestamp)
    (hopen : s.open_idx = []) :
    (process_bar collab params allBars s ib).trades = s.trades ∧
    (process_bar collab params allBars s ib).open_idx = [] ∧
    ∃ c2, (process_bar collab params allBars s ib).context = some c2 ∧
      c2.signal_triggered_this_week = true ∧
      c2.current_week_start = c.current_week_start := by
  unfold process_bar
  dsimp only
  split
  · exact ⟨rfl, hopen, c, hctx, hflag, rfl⟩
  · split
    · split
      · exact ⟨rfl, hopen, c, hctx, hflag, rfl⟩
      · exact ⟨rfl, hopen, c, hctx, hflag, rfl⟩
    · split
      · split
        · exact ⟨rfl, hopen, c, hctx, hflag, rfl⟩
        · exact ⟨rfl, hopen, c, hctx, hflag, rfl⟩
      · split
        · split
          · exact ⟨rfl, hopen, c, hctx, hflag, rfl⟩
          · exact ⟨rfl, hopen, c, hctx, hflag, rfl⟩
        · split
          all_goals try dsimp only
          all_goals rw [hctx, hopen]
          all_goals simp only [check_and_close_expiry, check_stop_losses,
            List.foldl_nil]
          all_goals split
          all_goals
            first
            | (rename_i hg
               rw [update_context_flag_keep collab c ib.2 _ hweek, hflag]
                 at hg
               simp at hg
               done)
            | exact ⟨rfl, rfl, _, rfl,
                (update_context_flag_keep collab c ib.2 _ hweek).trans hflag,
                (update_context_week collab (some c) ib.2 _).trans hweek.symm⟩

/-- A bar whose signal evaluation triggers a type that is not in
signals_to_test opens no trade — the trade list is unchanged and nothing is
open — yet leaves a context flagged for the current week. -/
lemma process_bar_filtered_trigger (collab : Collaborators)
    (params : BacktestParameters) (allBars : List BarData) (s : SimState)
    (i : Nat) (bar : BarData) (pw : List BarData)
    (hmkt : collab.is_market_hours bar.timestamp = true)
    (hwarm : ¬ i < 7 * 6)
    (hpw : collab.get_previous_week_data bar.timestamp (allBars.take i) =
      some pw)
    (hne : pw.isEmpty = false)
    (hopen : s.open_idx = [])
    (hflag0 : (update_context collab s.context bar
      pw).signal_triggered_this_week = false)
    (htrig : (evaluate_all_signals bar
      (update_context collab s.context bar pw)).1.is_triggered = true)
    (hmem : sigMem (evaluate_all_signals bar
        (update_context collab s.context bar pw)).1.signal_type
      params.signals_to_test = false) :
    (process_bar collab params allBars s (i, bar)).trades = s.trades ∧
    (process_bar collab params allBars s (i, bar)).open_idx = [] ∧
    ∃ c2, (process_bar collab params allBars s (i, bar)).context =
        some c2 ∧
      c2.signal_triggered_this_week = true ∧
      c2.current_week_start = collab.get_week_start bar.timestamp := by
  unfold process_bar
  dsimp only
  split
  · rename_i hm
    rw [hmkt] at hm
    exact absurd hm (by decide)
  · split
    · rename_i hnone
      rw [hnone] at hpw
      exact Option.noConfusion hpw
    · rename_i pw2 heq
      rw [heq] at hpw
      injection hpw with hpweq
      subst hpweq
      rw [hopen, hne]
      simp only [Bool.false_eq_true, if_false]
      split
      all_goals try dsimp only
      all_goals try rw [hopen]
      all_goals simp only [check_and_close_expiry, check_stop_losses,
        List.foldl_nil]
      all_goals rw [hflag0]
      all_goals simp only [List.isEmpty_nil, Bool.not_false, Bool.and_self]
      all_goals rw [htrig, hmem]
      all_goals simp only [Bool.and_false, Bool.false_eq_true, if_false]
      all_goals refine ⟨rfl, rfl, _, rfl, ?_, ?_⟩
      all_goals
        first
        | (rw [evaluate_all_snd_flag, htrig]
           rfl)
        | (rw [evaluate_all_snd_week, update_context_week])

/-- Every bar of the rest of the week preserves the flagged, trade-free
state. -/
lemma process_bar_flagged_fold (collab : Collaborators)
    (params : BacktestParameters) (allBars : List BarData) (W : Ts) :
    ∀ (l : List (Nat × BarData)) (s : SimState) (c : WeeklyContext),
      s.context = some c → c.signal_triggered_this_week = true →
      c.current_week_start = W → s.open_idx = [] →
      (∀ b ∈ l, collab.get_week_start b.2.timestamp = W) →
      (l.foldl (process_bar collab params allBars) s).trades = s.trades ∧
      (l.foldl (process_bar collab params allBars) s).open_idx = [] ∧
      ∃ c2, (l.foldl (process_bar collab params allBars) s).context =
          some c2 ∧ c2.signal_triggered_this_week = true ∧
        c2.current_week_start = W := by
  intro l
  induction l with
  | nil => exact fun s c hc hf hw ho _ => ⟨rfl, ho, c, hc, hf, hw⟩
  | cons b bs ih =>
    intro s c hc hf hw ho hweeks
    have hb : collab.get_week_start b.2.timestamp = W := hweeks b (by simp)
    obtain ⟨h1, h2, c2, h3, h4, h5⟩ := process_bar_flagged_step collab
      params allBars s b c hc hf (by rw [hw, hb]) ho
    have hrest := ih (process_bar collab params allBars s b) c2 h3 h4
      (h5.trans hw) h2 (fun x hx => hweeks x (by simp [hx]))
    simp only [List.foldl_cons]
    exact ⟨hrest.1.trans h1, hrest.2.1,
      hrest.2.2⟩

/-- C10: when signal evaluation on a bar triggers a type that is not in the
run's signals_to_test, process_bar opens no trade — the trade list and the
empty open list are unchanged — yet the weekly context is still flagged
signal_triggered_this_week; and over every sequence of later bars of the
same week the trade list stays unchanged, nothing is open, and the context
stays flagged, so no trade of any type is opened until the next week
boundary. -/
theorem c10_filtered_trigger_blocks_week (collab : Collaborators)
    (params : BacktestParameters) (allBars : List BarData) (s : SimState)
    (i : Nat) (bar : BarData) (pw : List BarData)
    (hmkt : collab.is_market_hours bar.timestamp = true)
    (hwarm : ¬ i < 7 * 6)
    (hpw : collab.get_previous_week_data bar.timestamp (allBars.take i) =
      some pw)
    (hne : pw.isEmpty = false)
    (hopen : s.open_idx = [])
    (hflag0 : (update_context collab s.context bar
      pw).signal_triggered_this_week = false)
    (htrig : (evaluate_all_signals bar
      (update_context collab s.context bar pw)).1.is_triggered = true)
    (hmem : sigMem (evaluate_all_signals bar
        (update_context collab s.context bar pw)).1.signal_type
      params.signals_to_test = false) :
    (process_bar collab params allBars s (i, bar)).trades = s.trades ∧
    (process_bar collab params allBars s (i, bar)).open_idx = [] ∧
    (∃ c2, (process_bar collab params allBars s (i, bar)).context =
        some c2 ∧ c2.signal_triggered_this_week = true) ∧
    ∀ laterBars : List (Nat × BarData),
      (∀ b ∈ laterBars, collab.get_week_start b.2.timestamp =
        collab.get_week_start bar.timestamp) →
      (laterBars.foldl (process_bar collab params allBars)
        (process_bar collab params allBars s (i, bar))).trades =
        s.trades ∧
      (laterBars.foldl (process_bar collab params allBars)
        (process_bar collab params allBars s (i, bar))).open_idx = [] ∧
      ∃ c3, (laterBars.foldl (process_bar collab params allBars)
          (process_bar collab params allBars s (i, bar))).context =
          some c3 ∧ c3.signal_triggered_this_week = true := by
  obtain ⟨h1, h2, c2, h3, h4, h5⟩ := process_bar_filtered_trigger collab
    params allBars s i bar pw hmkt hwarm hpw hne hopen hflag0 htrig hmem
  refine ⟨h1, h2, ⟨c2, h3, h4⟩, ?_⟩
  intro laterBars hlb
  obtain ⟨g1, g2, c3, g3, g4, g5⟩ := process_bar_flagged_fold collab params
    allBars (collab.get_week_start bar.timestamp) laterBars
    (process_bar collab params allBars s (i, bar)) c2 h3 h4 h5 h2 hlb
  exact ⟨g1.trans h1, g2, c3, g3, g4⟩

/-- C1 witness: on the concrete bear-trap week with a gateway that knows
only the hedge strike 24550, the main price resolves to none and the
claim theorem yields the non-abandoned hedge-only trade. -/
theorem c1_open_trade_amended_witness :
    ∃ t, open_trade (fun _ => 300) c1Oracle c1Signal wB2 wCtx1 c1Params =
        some t ∧
      (∀ p ∈ t.positions, p.position_type = PositionType.HEDGE) ∧
      (c1Params.use_hedging = false →
        t.positions = [] ∧ calculate_position_cost t = 0) :=
  c1_open_trade_amended (fun _ => 300) c1Oracle c1Signal wB2 wCtx1 c1Params
    .S1 .BULLISH 25063 24870 .PE rfl rfl rfl rfl rfl (by decide)

/-- C6 witness: on the double-trigger week the S1 (index 0) and S3
(index 2) conditions hold simultaneously and evaluate_all_signals returns
the triggered S1. -/
theorem c6_priority_first_match_witness :
    (evaluate_all_signals dblB2 dblCtx).1.is_triggered = true ∧
    (evaluate_all_signals dblB2 dblCtx).1.signal_type =
      some (sigOfIdx 0) :=
  c6_priority_first_match dblB2 dblCtx 0 2 (by decide) (by decide)
    (by decide) (by decide) (by decide)
    (fun k hk => absurd hk (by omega))

/-- C10 witness: on the second bar of the concrete bear-trap week S1
triggers while only S2 is requested — no trade is opened, the context is
flagged, and every later same-week bar keeps the state trade-free and
flagged. -/
theorem c10_filtered_trigger_blocks_week_witness :
    (process_bar wCollab c10Params wBars c10State (43, wB2)).trades =
      c10State.trades ∧
    (process_bar wCollab c10Params wBars c10State (43, wB2)).open_idx =
      [] ∧
    (∃ c2, (process_bar wCollab c10Params wBars c10State
        (43, wB2)).context = some c2 ∧
      c2.signal_triggered_this_week = true) ∧
    ∀ laterBars : List (Nat × BarData),
      (∀ b ∈ laterBars, wCollab.get_week_start b.2.timestamp =
        wCollab.get_week_start wB2.timestamp) →
      (laterBars.foldl (process_bar wCollab c10Params wBars)
        (process_bar wCollab c10Params wBars c10State
          (43, wB2))).trades = c10State.trades ∧
      (laterBars.foldl (process_bar wCollab c10Params wBars)
        (process_bar wCollab c10Params wBars c10State
          (43, wB2))).open_idx = [] ∧
      ∃ c3, (laterBars.foldl (process_bar wCollab c10Params wBars)
          (process_bar wCollab c10Params wBars c10State
            (43, wB2))).context = some c3 ∧
        c3.signal_triggered_this_week = true :=
  c10_filtered_trigger_blocks_week wCollab c10Params wBars c10State 43 wB2
    [pwBar] (by decide) (by decide) rfl rfl rfl (by decide) (by decide)
    (by decide)

end Breeze
